import Mathlib

/-!
Verification of the orbiscast stream lifecycle manager.

The definitions below are a shallow embedding of the streaming module
(src/modules/iptv/schedulers.ts together with the stream command handler
and src/utils/config.ts).  Module-level mutable variables of the
TypeScript code (streamer login state, abort controller, current channel
entry, spectator monitor handle, alone-time accumulator) become fields of
an explicit state record; each exported function becomes a state
transition that additionally returns the list of observable events it
emits (log lines, token aborts, fixed delays, timer creation/clearing,
encoder prepare calls).  Asynchronous fire-and-forget calls are modelled
by their synchronous prefix up to the first long-lived await, and the
cooperative event-loop interleaving is serialized, which the design
document states is the intended semantics.
-/

namespace Orbiscast

/-- JavaScript falsy-or for strings: `x || d` where the empty string is falsy. -/
def jsOrStr (x : Option String) (d : String) : String :=
  match x with
  | none => d
  | some s => if s = "" then d else s

/-- Value of a list of decimal digit characters. -/
def digitsVal (ds : List Char) : Nat :=
  ds.foldl (fun a c => a * 10 + (c.toNat - 48)) 0

/-- JavaScript parseInt on an already trimmed string: optional sign followed by
leading decimal digits; none models NaN (no digits at all). -/
def jsParseInt (s : String) : Option Int :=
  let rec split : List Char → (Int × List Char)
    | '-' :: r => (-1, r)
    | '+' :: r => (1, r)
    | r => (1, r)
  let (sign, rest) := split s.data
  let ds := rest.takeWhile Char.isDigit
  if ds.isEmpty then none else some (sign * (digitsVal ds : Int))

/-- Whether a pattern occurs as a prefix of some suffix of the character
list: helper for the substring test. -/
def containsStrAux (pat : List Char) : List Char → Bool
  | [] => pat.isEmpty
  | c :: cs => pat.isPrefixOf (c :: cs) || containsStrAux pat cs

/-- Whether pat occurs as a substring of s (JavaScript String.includes). -/
def containsStr (s pat : String) : Bool :=
  containsStrAux pat.data s.data

/-- ASCII lowercasing of a string (JavaScript toLowerCase), written over the
character list so that it evaluates by reduction. -/
def lowerStr (s : String) : String :=
  String.mk (s.data.map Char.toLower)

/-- The relevant process environment variables (process.env), each possibly unset. -/
structure Env where
  PLAYLIST : Option String := none
  XMLTV : Option String := none
  REFRESH_IPTV : Option String := none
  DEFAULT_STREAM_TIMEOUT : Option String := none
  RAM_CACHE : Option String := none
  DISCORD_BOT_TOKEN : Option String := none
  DISCORD_USER_TOKEN : Option String := none
  GUILD : Option String := none
  DEFAULT_TEXT_CHANNEL : Option String := none
  DEBUG : Option String := none
  CACHE_DIR : Option String := none
deriving DecidableEq, Repr

/-- The configuration record built by the Config constructor in
src/utils/config.ts.  Numeric fields are Option Int, none modelling NaN
from parseInt. -/
structure Config where
  PLAYLIST : String
  XMLTV : String
  REFRESH_IPTV : Option Int
  DEFAULT_STREAM_TIMEOUT : Option Int
  RAM_CACHE : Bool
  DISCORD_BOT_TOKEN : String
  DISCORD_USER_TOKEN : String
  GUILD : String
  DEFAULT_TEXT_CHANNEL : String
  DEBUG : Bool
  CACHE_DIR : String
deriving DecidableEq, Repr

/-- env.X?.trim() -/
def trimOpt (x : Option String) : Option String :=
  x.map (fun s => s.trim)

/-- The Config constructor of src/utils/config.ts: read each environment
variable, trim it, apply the JavaScript falsy defaults, and parseInt the
numeric ones. -/
def Config.ofEnv (env : Env) : Config :=
  let ramCache := (trimOpt env.RAM_CACHE).map lowerStr == some "true"
  { PLAYLIST := jsOrStr (trimOpt env.PLAYLIST) ""
    XMLTV := jsOrStr (trimOpt env.XMLTV) ""
    REFRESH_IPTV := jsParseInt (jsOrStr (trimOpt env.REFRESH_IPTV) "1440")
    DEFAULT_STREAM_TIMEOUT := jsParseInt (jsOrStr (trimOpt env.DEFAULT_STREAM_TIMEOUT) "10")
    RAM_CACHE := ramCache
    DISCORD_BOT_TOKEN := jsOrStr (trimOpt env.DISCORD_BOT_TOKEN) ""
    DISCORD_USER_TOKEN := jsOrStr (trimOpt env.DISCORD_USER_TOKEN) ""
    GUILD := jsOrStr (trimOpt env.GUILD) "0"
    DEFAULT_TEXT_CHANNEL := jsOrStr (trimOpt env.DEFAULT_TEXT_CHANNEL) "0"
    DEBUG := (trimOpt env.DEBUG).map lowerStr == some "true"
    CACHE_DIR := jsOrStr (trimOpt env.CACHE_DIR)
      (if ramCache then "/dev/shm/orbiscast" else "../cache") }

/-- A channel entry from src/interfaces/iptv.ts (fields the core uses). -/
structure ChannelEntry where
  xui_id : Int
  tvg_id : Option String := none
  tvg_name : Option String := none
  url : String
deriving DecidableEq, Repr

/-- A member of a voice channel, as seen through channel.members: an id and
the user.bot flag. -/
structure Member where
  id : String
  bot : Bool
deriving DecidableEq, Repr

/-- Log severities used by the logger. -/
inductive LogLevel
  | debug
  | info
  | error
deriving DecidableEq, Repr

/-- Observable events emitted by the streaming module: log lines, abort of a
cancellation token (identified by its generation number), fixed awaited
delays, underlying voice connection attempts, encoder prepare calls
(carrying the token generation they are bound to), interval timer
creation (with its period in milliseconds) and clearing, and the two
direct calls the spectator monitor makes when the idle threshold is
reached. -/
inductive Ev
  | log (lvl : LogLevel) (msg : String)
  | abortToken (gen : Nat)
  | delayMs (ms : Nat)
  | loginAttempt
  | joinAttempt (guildId channelId : String)
  | prepareCall (gen : Nat) (url : String)
  | timerCreated (tid : Nat) (periodMs : Nat)
  | timerCleared (tid : Nat)
  | monitorStopCall
  | monitorLeaveCall
deriving DecidableEq, Repr

/-- The module-level mutable state of src/modules/iptv/schedulers.ts, plus the
two environment facts (whether login and voice join succeed) that decide
the outcome of external calls.  The abort controller is modelled by the
generation number tokenGen of the current token: aborting is recorded as
an event naming the aborted generation, and replacing the controller
increments the generation.  pipelines records every encoder pipeline ever
prepared together with the token generation it is bound to; a pipeline is
alive exactly when its token has not been aborted, i.e. when its
generation equals the current one.  gvcChannel is the channel id held by
the separate discordjs-voice connection registry consulted by the command
handler. -/
structure StreamState where
  loggedIn : Bool
  loginWorks : Bool
  joinWorks : Bool
  tokenGen : Nat
  currentChannelEntry : Option ChannelEntry
  streamSpectatorMonitor : Option Nat
  nextTimerId : Nat
  activeTimers : List Nat
  streamAloneTime : Int
  pipelines : List (Nat × String)
  voiceConn : Option String
  gvcChannel : Option String
  cfg : Config
deriving DecidableEq, Repr

/-- loginStreamer: no-op when already ready, otherwise attempt the login; the
Bool records whether the call threw (login rejected). -/
def loginStreamer (st : StreamState) : StreamState × List Ev × Bool :=
  if st.loggedIn then
    (st, [.log .debug "Streamer client is already logged in"], false)
  else if st.loginWorks then
    ({ st with loggedIn := true },
     [.loginAttempt, .log .info "Streamer client logged in successfully"], false)
  else
    (st, [.loginAttempt], true)

/-- initializeStreamer: call loginStreamer and swallow any error, logging it. -/
def initializeStreamer (st : StreamState) : StreamState × List Ev :=
  let r := loginStreamer st
  if r.2.2 then (r.1, r.2.1 ++ [.log .error "Error logging in streamer client"])
  else (r.1, r.2.1)

/-- joinVoiceChannel: guard on login, no-op with a debug log when the current
voice connection already targets the channel, otherwise attempt the join. -/
def joinVoiceChannel (st : StreamState) (guildId channelId : String) :
    StreamState × List Ev :=
  if !st.loggedIn then
    (st, [.log .error "Streamer client is not logged in."])
  else if st.voiceConn = some channelId then
    (st, [.log .debug "Already connected to voice channel"])
  else if st.joinWorks then
    ({ st with voiceConn := some channelId },
     [.joinAttempt guildId channelId, .log .info "Connected to voice channel"])
  else
    (st, [.joinAttempt guildId channelId, .log .error "Failed to connect to voice channel"])

/-- stopStreaming: guard on login; abort the current token, await the fixed
1000 ms grace delay, replace the token with a fresh one; if no channel is
playing return at the debug branch, otherwise clear the current channel,
clear the spectator monitor if present, and reset the alone-time
accumulator. -/
def stopStreaming (st : StreamState) : StreamState × List Ev :=
  if !st.loggedIn then
    (st, [.log .error "Streamer client is not logged in"])
  else
    let ev0 : List Ev := [.abortToken st.tokenGen, .delayMs 1000]
    let st1 := { st with tokenGen := st.tokenGen + 1 }
    match st1.currentChannelEntry with
    | none => (st1, ev0 ++ [.log .debug "No channel currently playing"])
    | some _ =>
      let st2 := { st1 with currentChannelEntry := none }
      let r :=
        match st2.streamSpectatorMonitor with
        | some tid =>
            ({ st2 with
                streamSpectatorMonitor := none
                activeTimers := st2.activeTimers.erase tid },
             [Ev.log .debug "Clearing spectator monitor", Ev.timerCleared tid])
        | none => (st2, ([] : List Ev))
      ({ r.1 with streamAloneTime := 0 },
       ev0 ++ [.log .info "Stopped video stream"] ++ r.2)

/-- leaveVoiceChannel: guard on login; stop any stream first, then drop the
voice connection. -/
def leaveVoiceChannel (st : StreamState) : StreamState × List Ev :=
  if !st.loggedIn then
    (st, [.log .error "Streamer client is not logged in"])
  else
    let r := stopStreaming st
    ({ r.1 with voiceConn := none },
     r.2 ++ [.log .info "Stopped video stream and disconnected from the voice channel"])

/-- startSpectatorMonitoring: reset the alone-time accumulator, clear any
existing monitor interval, then create a fresh 10000 ms interval timer. -/
def startSpectatorMonitoring (st : StreamState) : StreamState × List Ev :=
  let st0 := { st with streamAloneTime := 0 }
  let r :=
    match st0.streamSpectatorMonitor with
    | some tid =>
        ({ st0 with
            streamSpectatorMonitor := none
            activeTimers := st0.activeTimers.erase tid },
         [Ev.timerCleared tid])
    | none => (st0, ([] : List Ev))
  let tid := r.1.nextTimerId
  ({ r.1 with
      streamSpectatorMonitor := some tid
      nextTimerId := tid + 1
      activeTimers := r.1.activeTimers ++ [tid] },
   r.2 ++ [Ev.timerCreated tid 10000])

/-- startStreaming, synchronous prefix: guard on login; prepare the encoder
pipeline bound to the current cancellation token, record the current
channel entry, then start spectator monitoring.  The subsequent awaited
playStream call is long-lived and runs after the caller has already
observed the stream as initiated, so it is not part of this transition. -/
def startStreaming (st : StreamState) (channelEntry : ChannelEntry) :
    StreamState × List Ev :=
  if !st.loggedIn then
    (st, [.log .error "Streamer client is not logged in"])
  else
    let st1 := { st with
      pipelines := st.pipelines ++ [(st.tokenGen, channelEntry.url)]
      currentChannelEntry := some channelEntry }
    let ev1 : List Ev := [.prepareCall st.tokenGen channelEntry.url,
                          .log .info "Streaming channel"]
    let m := startSpectatorMonitoring st1
    (m.1, ev1 ++ m.2)

/-- JavaScript falsiness of an optional string (undefined or empty). -/
def jsFalsyStr : Option String → Bool
  | none => true
  | some s => s == ""

/-- channels.find on a case-insensitive tvg_name match. -/
def findChannel (db : List ChannelEntry) (channelName : String) : Option ChannelEntry :=
  db.find? (fun ch =>
    match ch.tvg_name with
    | some n => lowerStr n == lowerStr channelName
    | none => false)

/-- Outcome returned to the command layer by executeStreamChannel. -/
structure ExecResult where
  success : Bool
  message : String
deriving DecidableEq, Repr

/-- The voice-join step of the stream command: skip the join when the
discordjs-voice registry already holds a connection to the desired
channel, otherwise join (against config.GUILD) and await the 750 ms
settling delay. -/
def joinBlock (st : StreamState) (voiceChannelId : String) : StreamState × List Ev :=
  if st.gvcChannel = some voiceChannelId then
    (st, [Ev.log .debug "Already connected to the desired voice channel"])
  else
    let j := joinVoiceChannel st st.cfg.GUILD voiceChannelId
    (j.1, [Ev.log .info "Joining voice channel..."] ++ j.2 ++ [Ev.delayMs 750])

/-- The successful main path of the stream command once the channel has been
resolved: log in if needed, stop any existing stream, await the 750 ms
settling delay, join the voice channel, and fire off startStreaming. -/
def execStreamPath (st : StreamState) (channel : ChannelEntry) (voiceChannelId : String) :
    StreamState × List Ev :=
  let a := initializeStreamer st
  let b := stopStreaming a.1
  let c := joinBlock b.1 voiceChannelId
  let d := startStreaming c.1 channel
  (d.1,
   a.2 ++ [Ev.log .info "Stopping any existing stream..."] ++ b.2
     ++ [Ev.delayMs 750] ++ c.2 ++ d.2)

/-- executeStreamChannel from the stream command handler: resolve the channel
name against the database; on failure return immediately; otherwise log
in if needed, stop any existing stream, await the 750 ms settling delay,
join the target voice channel unless the registry already holds a
connection to it, and fire off startStreaming. -/
def executeStreamChannel (st : StreamState) (channelName : String)
    (voiceChannelId : String) (db : List ChannelEntry) :
    StreamState × List Ev × ExecResult :=
  if channelName = "" then
    (st, [], ⟨false, "Please specify a channel name."⟩)
  else
    let ev0 : List Ev := [.log .info ("Attempting to stream channel: " ++ channelName)]
    match findChannel db channelName with
    | none => (st, ev0, ⟨false, "Channel not found: " ++ channelName⟩)
    | some channel =>
      if jsFalsyStr channel.tvg_id then
        (st, ev0, ⟨false, "Channel not found: " ++ channelName⟩)
      else if voiceChannelId = "" then
        (st, ev0, ⟨false, "You need to be in a voice channel to use this function."⟩)
      else
        let r := execStreamPath st channel voiceChannelId
        (r.1, ev0 ++ r.2, ⟨true, "Now streaming " ++ channelName⟩)

/-- The idle threshold in seconds used by the spectator monitor:
config.DEFAULT_STREAM_TIMEOUT times 60, NaN propagating. -/
def thresholdSeconds (cfg : Config) : Option Int :=
  cfg.DEFAULT_STREAM_TIMEOUT.map (fun t => t * 60)

/-- JavaScript comparison a >= b where b may be NaN (none): any comparison
with NaN is false. -/
def jsGeOpt (a : Int) (b : Option Int) : Bool :=
  match b with
  | none => false
  | some b0 => decide (b0 ≤ a)

/-- Number of non-bot members of a voice channel. -/
def nonBotCount (mems : List Member) : Nat :=
  (mems.filter (fun m => !m.bot)).length

/-- One firing of the spectator monitor interval: a no-op when there is no
voice connection or the channel lookup fails; otherwise count non-bot
members, increment the alone-time accumulator by 10 when only the
streaming client itself remains, reset it otherwise, and once the
accumulator reaches the configured threshold invoke stopStreaming and
leaveVoiceChannel. -/
def monitorTick (st : StreamState) (lookup : Option (List Member)) :
    StreamState × List Ev :=
  match st.voiceConn with
  | none => (st, [])
  | some _ =>
    match lookup with
    | none => (st, [])
    | some mems =>
      if nonBotCount mems = 1 then
        let st1 := { st with streamAloneTime := st.streamAloneTime + 10 }
        if jsGeOpt st1.streamAloneTime (thresholdSeconds st1.cfg) then
          let s := stopStreaming st1
          let l := leaveVoiceChannel s.1
          (l.1, [Ev.log .debug "No spectators", Ev.log .info "No spectators timeout. Stopping stream.",
                 Ev.monitorStopCall] ++ s.2 ++ [Ev.monitorLeaveCall] ++ l.2)
        else (st1, [Ev.log .debug "No spectators"])
      else ({ st with streamAloneTime := 0 }, [])

/-- Run the spectator monitor over a list of per-tick channel lookups.  The
interval only fires while it is scheduled, so the run ends as soon as the
monitor handle is cleared. -/
def runMonitor : StreamState → List (Option (List Member)) → StreamState × List Ev
  | st, [] => (st, [])
  | st, x :: xs =>
    match st.streamSpectatorMonitor with
    | none => (st, [])
    | some _ =>
      let t := monitorTick st x
      let r := runMonitor t.1 xs
      (r.1, t.2 ++ r.2)

/-- The operations the outside world can perform on the streaming module. -/
inductive Op
  | execOp (channelName voiceChannelId : String) (db : List ChannelEntry)
  | stopOp
  | leaveOp
  | joinOp (guildId channelId : String)
  | tickOp (lookup : Option (List Member))

/-- State reached after one operation. -/
def applyOp (st : StreamState) : Op → StreamState
  | .execOp name vc db => (executeStreamChannel st name vc db).1
  | .stopOp => (stopStreaming st).1
  | .leaveOp => (leaveVoiceChannel st).1
  | .joinOp g c => (joinVoiceChannel st g c).1
  | .tickOp l => (monitorTick st l).1

/-- State reached after a sequence of operations. -/
def runOps (st : StreamState) (ops : List Op) : StreamState :=
  ops.foldl applyOp st

/-- The module initial state: logged out, fresh abort controller, no channel,
no monitor, no pipelines, no connections. -/
def initialState (cfg : Config) (loginWorks joinWorks : Bool) : StreamState :=
  { loggedIn := false
    loginWorks := loginWorks
    joinWorks := joinWorks
    tokenGen := 0
    currentChannelEntry := none
    streamSpectatorMonitor := none
    nextTimerId := 0
    activeTimers := []
    streamAloneTime := 0
    pipelines := []
    voiceConn := none
    gvcChannel := none
    cfg := cfg }

/-- Number of pipelines bound to a token that has not been aborted. -/
def aliveCount (st : StreamState) : Nat :=
  (st.pipelines.filter (fun p => p.1 = st.tokenGen)).length

/-- Pipeline invariant: every pipeline is bound to an already issued token
generation, and at most one pipeline holds the live token. -/
def PipeInv (st : StreamState) : Prop :=
  (∀ p ∈ st.pipelines, p.1 ≤ st.tokenGen) ∧ aliveCount st ≤ 1

/-- The timers the monitor handle accounts for. -/
def monitorList (st : StreamState) : List Nat :=
  match st.streamSpectatorMonitor with
  | some tid => [tid]
  | none => []

/-- Monitor invariant: the scheduled interval timers are exactly the one the
monitor handle owns, a monitor only exists while a channel is playing,
and the handle is older than the next fresh timer id. -/
def MonInv (st : StreamState) : Prop :=
  st.activeTimers = monitorList st ∧
  (st.streamSpectatorMonitor.isSome → st.currentChannelEntry.isSome) ∧
  (∀ tid, st.streamSpectatorMonitor = some tid → tid < st.nextTimerId)

/-- Members of the call other than bots and other than the streaming client
itself: the human audience. -/
def humanCount (selfId : String) (mems : List Member) : Nat :=
  (mems.filter (fun m => !m.bot && !(m.id == selfId))).length

/-- The streaming client appears exactly once in the member list, as a
non-bot user (the secondary client is a user account, not a flagged bot). -/
def selfPresent (selfId : String) (mems : List Member) : Prop :=
  (mems.filter (fun m => !m.bot && m.id == selfId)).length = 1

/-- A per-tick lookup result in which the streaming client is alone: only one
non-bot member (itself) is in the call. -/
def AloneIns (ins : List (Option (List Member))) : Prop :=
  ∀ x ∈ ins, ∃ mems, x = some mems ∧ nonBotCount mems = 1

/-- The substring of an ffmpeg error message that identifies the encoder
process having been terminated: ffmpeg exits with code 255 when it is
killed by the abort signal of the session cancellation token rather than
failing on its own. -/
def cancellationExitMarker : String :=
  "ffmpeg exited with code 255"

/-- The possible underlying causes of an encoder error event: the process was
killed because the session cancellation token fired (rendered by the
ffmpeg wrapper as an exit with code 255), or a genuine failure with its
own message. -/
inductive EncoderFailure
  | cancelledByToken
  | failure (msg : String)
deriving DecidableEq, Repr

/-- The message the ffmpeg wrapper library attaches to the error event for
each failure cause. -/
def renderFfmpegError : EncoderFailure → String
  | .cancelledByToken => "Error: ffmpeg exited with code 255"
  | .failure msg => msg

/-- Whether an encoder failure is the expected termination caused by the
session cancellation token. -/
def killedByCancellation : EncoderFailure → Bool
  | .cancelledByToken => true
  | .failure _ => false

/-- The command error handler installed by startStreaming on the encoder
pipeline: errors whose text contains the cancellation exit marker are
suppressed entirely; every other error is logged at error level. -/
def ffmpegErrorEvents (err : String) : List Ev :=
  if containsStr err cancellationExitMarker then []
  else [.log .error ("FFmpeg " ++ err)]

/-- Modelled from the earlier revision of the streaming module
(utils/discord_stream.ts): the effective stream duration used by
startStreaming there, defaulting to config.DEFAULT_STREAM_TIMEOUT when
the requested duration is NaN or not positive. -/
def effectiveStreamDuration (cfg : Config) (duration : Option Int) : Option Int :=
  match duration with
  | none => cfg.DEFAULT_STREAM_TIMEOUT
  | some d => if d ≤ 0 then cfg.DEFAULT_STREAM_TIMEOUT else some d

/-- Number of occurrences of an event in a trace. -/
def countEv (evs : List Ev) (e : Ev) : Nat :=
  (evs.filter (fun x => x = e)).length

/-- The configuration obtained from an entirely unset environment. -/
def sampleConfig : Config :=
  Config.ofEnv {}

/-- A sample configuration with a one minute idle threshold. -/
def quickConfig : Config :=
  { sampleConfig with DEFAULT_STREAM_TIMEOUT := some 1 }

/-- Sample channel entries used to instantiate scenario theorems. -/
def chanA : ChannelEntry :=
  { xui_id := 1, tvg_id := some "one.example", tvg_name := some "BBC One", url := "http://example/one" }

/-- Second sample channel entry. -/
def chanB : ChannelEntry :=
  { xui_id := 2, tvg_id := some "two.example", tvg_name := some "BBC Two", url := "http://example/two" }

/-- A sample channel database. -/
def sampleDb : List ChannelEntry :=
  [chanA, chanB]

/-- A logged-in state with nothing playing and no connections. -/
def readyState : StreamState :=
  { initialState sampleConfig true true with loggedIn := true }

/-- A state in which the streamer client is logged out and its credentials do
not work: every login attempt fails. -/
def loginFailState : StreamState :=
  initialState sampleConfig false true

/-- A state in which a stream is playing with the spectator monitor running
and a one minute idle threshold. -/
def monitorState : StreamState :=
  { readyState with
      cfg := quickConfig
      currentChannelEntry := some chanA
      streamSpectatorMonitor := some 0
      nextTimerId := 1
      activeTimers := [0]
      voiceConn := some "123" }

/-- The streaming client member as it appears in the voice call. -/
def selfMember : Member :=
  { id := "streamer", bot := false }

/-- A human audience member. -/
def humanMember : Member :=
  { id := "alice", bot := false }

/-- A per-tick lookup in which the streaming client is alone in the call. -/
def aloneLookup : Option (List Member) :=
  some [selfMember]

/-- A per-tick lookup in which a human spectator is present. -/
def crowdLookup : Option (List Member) :=
  some [selfMember, humanMember]

/-- A state in which the spectator monitor is actively polling a playing
stream: logged in, a channel playing, a monitor interval scheduled, a
voice connection up, and a numeric idle threshold of T minutes. -/
def MonitorRunning (st : StreamState) (T : Int) : Prop :=
  st.loggedIn = true ∧ st.currentChannelEntry.isSome = true ∧
  st.streamSpectatorMonitor.isSome = true ∧ st.voiceConn.isSome = true ∧
  st.cfg.DEFAULT_STREAM_TIMEOUT = some T

/-! ### Shape lemmas for the individual operations -/

lemma init_already {st : StreamState} (h : st.loggedIn = true) :
    initializeStreamer st = (st, [.log .debug "Streamer client is already logged in"]) := by
  simp [initializeStreamer, loginStreamer, h]

lemma init_success {st : StreamState} (h : st.loggedIn = false) (hw : st.loginWorks = true) :
    initializeStreamer st
      = ({ st with loggedIn := true },
         [.loginAttempt, .log .info "Streamer client logged in successfully"]) := by
  simp [initializeStreamer, loginStreamer, h, hw]

lemma init_failure {st : StreamState} (h : st.loggedIn = false) (hw : st.loginWorks = false) :
    initializeStreamer st
      = (st, [.loginAttempt, .log .error "Error logging in streamer client"]) := by
  simp [initializeStreamer, loginStreamer, h, hw]

lemma stop_out {st : StreamState} (h : st.loggedIn = false) :
    stopStreaming st = (st, [.log .error "Streamer client is not logged in"]) := by
  simp [stopStreaming, h]

lemma stop_noChannel {st : StreamState} (h : st.loggedIn = true)
    (hc : st.currentChannelEntry = none) :
    stopStreaming st
      = ({ st with tokenGen := st.tokenGen + 1 },
         [.abortToken st.tokenGen, .delayMs 1000, .log .debug "No channel currently playing"]) := by
  simp [stopStreaming, h, hc]

lemma stop_mon {st : StreamState} {ch : ChannelEntry} {tid : Nat} (h : st.loggedIn = true)
    (hc : st.currentChannelEntry = some ch) (hm : st.streamSpectatorMonitor = some tid) :
    stopStreaming st
      = ({ st with
            tokenGen := st.tokenGen + 1
            currentChannelEntry := none
            streamSpectatorMonitor := none
            activeTimers := st.activeTimers.erase tid
            streamAloneTime := 0 },
         [.abortToken st.tokenGen, .delayMs 1000, .log .info "Stopped video stream",
          .log .debug "Clearing spectator monitor", .timerCleared tid]) := by
  simp [stopStreaming, h, hc, hm]

lemma stop_nomon {st : StreamState} {ch : ChannelEntry} (h : st.loggedIn = true)
    (hc : st.currentChannelEntry = some ch) (hm : st.streamSpectatorMonitor = none) :
    stopStreaming st
      = ({ st with
            tokenGen := st.tokenGen + 1
            currentChannelEntry := none
            streamAloneTime := 0 },
         [.abortToken st.tokenGen, .delayMs 1000, .log .info "Stopped video stream"]) := by
  simp [stopStreaming, h, hc, hm]

lemma join_out {st : StreamState} {g c : String} (h : st.loggedIn = false) :
    joinVoiceChannel st g c = (st, [.log .error "Streamer client is not logged in."]) := by
  simp [joinVoiceChannel, h]

lemma join_already {st : StreamState} {g c : String} (h : st.loggedIn = true)
    (hv : st.voiceConn = some c) :
    joinVoiceChannel st g c = (st, [.log .debug "Already connected to voice channel"]) := by
  simp [joinVoiceChannel, h, hv]

lemma join_ok {st : StreamState} {g c : String} (h : st.loggedIn = true)
    (hv : st.voiceConn ≠ some c) (hw : st.joinWorks = true) :
    joinVoiceChannel st g c
      = ({ st with voiceConn := some c },
         [.joinAttempt g c, .log .info "Connected to voice channel"]) := by
  simp [joinVoiceChannel, h, hv, hw]

lemma join_fail {st : StreamState} {g c : String} (h : st.loggedIn = true)
    (hv : st.voiceConn ≠ some c) (hw : st.joinWorks = false) :
    joinVoiceChannel st g c
      = (st, [.joinAttempt g c, .log .error "Failed to connect to voice channel"]) := by
  simp [joinVoiceChannel, h, hv, hw]

lemma leave_out {st : StreamState} (h : st.loggedIn = false) :
    leaveVoiceChannel st = (st, [.log .error "Streamer client is not logged in"]) := by
  simp [leaveVoiceChannel, h]

lemma leave_in {st : StreamState} (h : st.loggedIn = true) :
    leaveVoiceChannel st
      = ({ (stopStreaming st).1 with voiceConn := none },
         (stopStreaming st).2
           ++ [.log .info "Stopped video stream and disconnected from the voice channel"]) := by
  simp [leaveVoiceChannel, h]

lemma start_out {st : StreamState} {ch : ChannelEntry} (h : st.loggedIn = false) :
    startStreaming st ch = (st, [.log .error "Streamer client is not logged in"]) := by
  simp [startStreaming, h]

lemma start_nomon {st : StreamState} {ch : ChannelEntry} (h : st.loggedIn = true)
    (hm : st.streamSpectatorMonitor = none) :
    startStreaming st ch
      = ({ st with
            pipelines := st.pipelines ++ [(st.tokenGen, ch.url)]
            currentChannelEntry := some ch
            streamAloneTime := 0
            streamSpectatorMonitor := some st.nextTimerId
            nextTimerId := st.nextTimerId + 1
            activeTimers := st.activeTimers ++ [st.nextTimerId] },
         [.prepareCall st.tokenGen ch.url, .log .info "Streaming channel",
          .timerCreated st.nextTimerId 10000]) := by
  simp [startStreaming, startSpectatorMonitoring, h, hm]

lemma start_mon {st : StreamState} {ch : ChannelEntry} {tid : Nat} (h : st.loggedIn = true)
    (hm : st.streamSpectatorMonitor = some tid) :
    startStreaming st ch
      = ({ st with
            pipelines := st.pipelines ++ [(st.tokenGen, ch.url)]
            currentChannelEntry := some ch
            streamAloneTime := 0
            streamSpectatorMonitor := some st.nextTimerId
            nextTimerId := st.nextTimerId + 1
            activeTimers := st.activeTimers.erase tid ++ [st.nextTimerId] },
         [.prepareCall st.tokenGen ch.url, .log .info "Streaming channel",
          .timerCleared tid, .timerCreated st.nextTimerId 10000]) := by
  simp [startStreaming, startSpectatorMonitoring, h, hm]

lemma start_keeps (ch : ChannelEntry) {st : StreamState} (h : st.loggedIn = true) :
    (startStreaming st ch).1.pipelines = st.pipelines ++ [(st.tokenGen, ch.url)] ∧
    (startStreaming st ch).1.tokenGen = st.tokenGen ∧
    (startStreaming st ch).1.currentChannelEntry = some ch ∧
    (startStreaming st ch).1.streamSpectatorMonitor = some st.nextTimerId ∧
    (startStreaming st ch).1.streamAloneTime = 0 ∧
    (startStreaming st ch).1.nextTimerId = st.nextTimerId + 1 ∧
    (startStreaming st ch).1.loggedIn = true ∧
    (startStreaming st ch).1.loginWorks = st.loginWorks ∧
    (startStreaming st ch).1.joinWorks = st.joinWorks ∧
    (startStreaming st ch).1.voiceConn = st.voiceConn ∧
    (startStreaming st ch).1.gvcChannel = st.gvcChannel ∧
    (startStreaming st ch).1.cfg = st.cfg := by
  rcases hm : st.streamSpectatorMonitor with _ | tid
  · simp [start_nomon h hm, h]
  · simp [start_mon h hm, h]

lemma stop_keeps (st : StreamState) :
    (stopStreaming st).1.pipelines = st.pipelines ∧
    (stopStreaming st).1.loggedIn = st.loggedIn ∧
    (stopStreaming st).1.loginWorks = st.loginWorks ∧
    (stopStreaming st).1.joinWorks = st.joinWorks ∧
    (stopStreaming st).1.voiceConn = st.voiceConn ∧
    (stopStreaming st).1.gvcChannel = st.gvcChannel ∧
    (stopStreaming st).1.nextTimerId = st.nextTimerId ∧
    (stopStreaming st).1.cfg = st.cfg := by
  rcases hl : st.loggedIn
  · simp [stop_out hl, hl]
  · rcases hc : st.currentChannelEntry with _ | ch
    · simp [stop_noChannel hl hc, hl]
    · rcases hm : st.streamSpectatorMonitor with _ | tid
      · simp [stop_nomon hl hc hm, hl]
      · simp [stop_mon hl hc hm, hl]

lemma stop_in_keeps {st : StreamState} (h : st.loggedIn = true) :
    (stopStreaming st).1.tokenGen = st.tokenGen + 1 ∧
    (stopStreaming st).1.currentChannelEntry = none := by
  rcases hc : st.currentChannelEntry with _ | ch
  · simp [stop_noChannel h hc, hc]
  · rcases hm : st.streamSpectatorMonitor with _ | tid
    · simp [stop_nomon h hc hm]
    · simp [stop_mon h hc hm]

lemma stop_events_shape {st : StreamState} (h : st.loggedIn = true) :
    ∃ rest, (stopStreaming st).2
      = Ev.abortToken st.tokenGen :: Ev.delayMs 1000 :: rest := by
  rcases hc : st.currentChannelEntry with _ | ch
  · rw [stop_noChannel h hc]; exact ⟨_, rfl⟩
  · rcases hm : st.streamSpectatorMonitor with _ | tid
    · rw [stop_nomon h hc hm]; exact ⟨_, rfl⟩
    · rw [stop_mon h hc hm]; exact ⟨_, rfl⟩

lemma start_events_shape (ch : ChannelEntry) {st : StreamState} (h : st.loggedIn = true) :
    ∃ rest, (startStreaming st ch).2
      = Ev.prepareCall st.tokenGen ch.url :: rest := by
  rcases hm : st.streamSpectatorMonitor with _ | tid
  · rw [start_nomon h hm]; exact ⟨_, rfl⟩
  · rw [start_mon h hm]; exact ⟨_, rfl⟩

lemma join_keeps (st : StreamState) (g c : String) :
    (joinVoiceChannel st g c).1.pipelines = st.pipelines ∧
    (joinVoiceChannel st g c).1.tokenGen = st.tokenGen ∧
    (joinVoiceChannel st g c).1.currentChannelEntry = st.currentChannelEntry ∧
    (joinVoiceChannel st g c).1.streamSpectatorMonitor = st.streamSpectatorMonitor ∧
    (joinVoiceChannel st g c).1.activeTimers = st.activeTimers ∧
    (joinVoiceChannel st g c).1.streamAloneTime = st.streamAloneTime ∧
    (joinVoiceChannel st g c).1.nextTimerId = st.nextTimerId ∧
    (joinVoiceChannel st g c).1.loggedIn = st.loggedIn ∧
    (joinVoiceChannel st g c).1.loginWorks = st.loginWorks ∧
    (joinVoiceChannel st g c).1.joinWorks = st.joinWorks ∧
    (joinVoiceChannel st g c).1.gvcChannel = st.gvcChannel ∧
    (joinVoiceChannel st g c).1.cfg = st.cfg := by
  rcases hl : st.loggedIn
  · simp [join_out hl, hl]
  · by_cases hv : st.voiceConn = some c
    · simp [join_already hl hv, hl]
    · rcases hw : st.joinWorks
      · simp [join_fail hl hv hw, hl, hw]
      · simp [join_ok hl hv hw, hl, hw]

lemma joinBlock_keeps (st : StreamState) (vc : String) :
    (joinBlock st vc).1.pipelines = st.pipelines ∧
    (joinBlock st vc).1.tokenGen = st.tokenGen ∧
    (joinBlock st vc).1.currentChannelEntry = st.currentChannelEntry ∧
    (joinBlock st vc).1.streamSpectatorMonitor = st.streamSpectatorMonitor ∧
    (joinBlock st vc).1.activeTimers = st.activeTimers ∧
    (joinBlock st vc).1.streamAloneTime = st.streamAloneTime ∧
    (joinBlock st vc).1.nextTimerId = st.nextTimerId ∧
    (joinBlock st vc).1.loggedIn = st.loggedIn ∧
    (joinBlock st vc).1.loginWorks = st.loginWorks ∧
    (joinBlock st vc).1.joinWorks = st.joinWorks ∧
    (joinBlock st vc).1.gvcChannel = st.gvcChannel ∧
    (joinBlock st vc).1.cfg = st.cfg := by
  by_cases hg : st.gvcChannel = some vc
  · simp [joinBlock, hg]
  · simp only [joinBlock, if_neg hg]
    exact join_keeps st st.cfg.GUILD vc

lemma init_keeps (st : StreamState) :
    (initializeStreamer st).1.pipelines = st.pipelines ∧
    (initializeStreamer st).1.tokenGen = st.tokenGen ∧
    (initializeStreamer st).1.currentChannelEntry = st.currentChannelEntry ∧
    (initializeStreamer st).1.streamSpectatorMonitor = st.streamSpectatorMonitor ∧
    (initializeStreamer st).1.activeTimers = st.activeTimers ∧
    (initializeStreamer st).1.streamAloneTime = st.streamAloneTime ∧
    (initializeStreamer st).1.nextTimerId = st.nextTimerId ∧
    (initializeStreamer st).1.loggedIn = (st.loggedIn || st.loginWorks) ∧
    (initializeStreamer st).1.loginWorks = st.loginWorks ∧
    (initializeStreamer st).1.joinWorks = st.joinWorks ∧
    (initializeStreamer st).1.voiceConn = st.voiceConn ∧
    (initializeStreamer st).1.gvcChannel = st.gvcChannel ∧
    (initializeStreamer st).1.cfg = st.cfg := by
  rcases hl : st.loggedIn
  · rcases hw : st.loginWorks
    · simp [init_failure hl hw, hl, hw]
    · simp [init_success hl hw, hl, hw]
  · simp [init_already hl, hl]

/-! ### Composition lemmas for the stream command main path -/

lemma exec_noName {st : StreamState} {vc : String} {db : List ChannelEntry} :
    executeStreamChannel st "" vc db
      = (st, [], ⟨false, "Please specify a channel name."⟩) := by
  simp [executeStreamChannel]

lemma exec_notFound {st : StreamState} {nm vc : String} {db : List ChannelEntry}
    (h0 : ¬ nm = "") (hf : findChannel db nm = none) :
    executeStreamChannel st nm vc db
      = (st, [.log .info ("Attempting to stream channel: " ++ nm)],
         ⟨false, "Channel not found: " ++ nm⟩) := by
  simp [executeStreamChannel, h0, hf]

lemma exec_falsyId {st : StreamState} {nm vc : String} {db : List ChannelEntry}
    {ch : ChannelEntry} (h0 : ¬ nm = "") (hf : findChannel db nm = some ch)
    (hid : jsFalsyStr ch.tvg_id = true) :
    executeStreamChannel st nm vc db
      = (st, [.log .info ("Attempting to stream channel: " ++ nm)],
         ⟨false, "Channel not found: " ++ nm⟩) := by
  simp [executeStreamChannel, h0, hf, hid]

lemma exec_noVoice {st : StreamState} {nm : String} {db : List ChannelEntry}
    {ch : ChannelEntry} (h0 : ¬ nm = "") (hf : findChannel db nm = some ch)
    (hid : jsFalsyStr ch.tvg_id = false) :
    executeStreamChannel st nm "" db
      = (st, [.log .info ("Attempting to stream channel: " ++ nm)],
         ⟨false, "You need to be in a voice channel to use this function."⟩) := by
  simp [executeStreamChannel, h0, hf, hid]

lemma exec_main {st : StreamState} {nm vc : String} {db : List ChannelEntry}
    {ch : ChannelEntry} (h0 : ¬ nm = "") (hf : findChannel db nm = some ch)
    (hid : jsFalsyStr ch.tvg_id = false) (hv : ¬ vc = "") :
    executeStreamChannel st nm vc db
      = ((execStreamPath st ch vc).1,
         Ev.log .info ("Attempting to stream channel: " ++ nm) :: (execStreamPath st ch vc).2,
         ⟨true, "Now streaming " ++ nm⟩) := by
  simp [executeStreamChannel, h0, hf, hid, hv]

lemma execPath_keeps (ch : ChannelEntry) (vc : String) {st : StreamState}
    (hL : st.loggedIn = true) :
    (execStreamPath st ch vc).1.pipelines = st.pipelines ++ [(st.tokenGen + 1, ch.url)] ∧
    (execStreamPath st ch vc).1.tokenGen = st.tokenGen + 1 ∧
    (execStreamPath st ch vc).1.currentChannelEntry = some ch ∧
    (execStreamPath st ch vc).1.streamSpectatorMonitor = some st.nextTimerId ∧
    (execStreamPath st ch vc).1.streamAloneTime = 0 ∧
    (execStreamPath st ch vc).1.nextTimerId = st.nextTimerId + 1 ∧
    (execStreamPath st ch vc).1.loggedIn = true ∧
    (execStreamPath st ch vc).1.loginWorks = st.loginWorks ∧
    (execStreamPath st ch vc).1.joinWorks = st.joinWorks ∧
    (execStreamPath st ch vc).1.gvcChannel = st.gvcChannel ∧
    (execStreamPath st ch vc).1.cfg = st.cfg := by
  obtain ⟨sb1, sb2, sb3, sb4, sb5, sb6, sb7, sb8⟩ := stop_keeps st
  obtain ⟨si1, si2⟩ := stop_in_keeps hL
  obtain ⟨jb1, jb2, jb3, jb4, jb5, jb6, jb7, jb8, jb9, jb10, jb11, jb12⟩ :=
    joinBlock_keeps (stopStreaming st).1 vc
  have hcL : (joinBlock (stopStreaming st).1 vc).1.loggedIn = true := by
    rw [jb8, sb2, hL]
  obtain ⟨k1, k2, k3, k4, k5, k6, k7, k8, k9, k10, k11, k12⟩ :=
    start_keeps ch hcL
  simp only [execStreamPath, init_already hL]
  refine ⟨?_, ?_, ?_, ?_, ?_, ?_, ?_, ?_, ?_, ?_, ?_⟩ <;>
    simp [k1, k2, k3, k4, k5, k6, k7, k8, k9, k10, k11, k12,
      jb1, jb2, jb3, jb4, jb5, jb6, jb7, jb8, jb9, jb10, jb11, jb12,
      sb1, sb2, sb3, sb4, sb5, sb6, sb7, sb8, si1, si2, hL]

lemma execPath_order {st : StreamState} {ch : ChannelEntry} {vc : String}
    (hL : st.loggedIn = true) :
    List.Sublist
      [Ev.abortToken st.tokenGen, Ev.delayMs 1000, Ev.prepareCall (st.tokenGen + 1) ch.url]
      (execStreamPath st ch vc).2 := by
  obtain ⟨sb1, sb2, sb3, sb4, sb5, sb6, sb7, sb8⟩ := stop_keeps st
  obtain ⟨si1, si2⟩ := stop_in_keeps hL
  obtain ⟨jb1, jb2, jb3, jb4, jb5, jb6, jb7, jb8, jb9, jb10, jb11, jb12⟩ :=
    joinBlock_keeps (stopStreaming st).1 vc
  have hcL : (joinBlock (stopStreaming st).1 vc).1.loggedIn = true := by
    rw [jb8, sb2, hL]
  obtain ⟨rb, hb⟩ := stop_events_shape hL
  obtain ⟨rd, hd⟩ := start_events_shape ch hcL
  have hdgen : (joinBlock (stopStreaming st).1 vc).1.tokenGen = st.tokenGen + 1 := by
    rw [jb2, si1]
  rw [hdgen] at hd
  simp only [execStreamPath, init_already hL, hb, hd]
  simp only [List.cons_append, List.append_assoc, List.nil_append]
  apply List.Sublist.cons
  apply List.Sublist.cons
  apply List.Sublist.cons₂
  apply List.Sublist.cons₂
  have h1 : List.Sublist [Ev.prepareCall (st.tokenGen + 1) ch.url]
      (Ev.prepareCall (st.tokenGen + 1) ch.url :: rd) :=
    List.Sublist.cons₂ _ (List.nil_sublist rd)
  refine List.Sublist.trans h1 ?_
  refine List.Sublist.trans (List.sublist_append_right (joinBlock (stopStreaming st).1 vc).2 _) ?_
  exact List.Sublist.trans (List.Sublist.cons _ (List.Sublist.refl _))
    (List.sublist_append_right rb _)

/-! ### Preservation of the pipeline invariant -/

lemma aliveCount_congr {st st' : StreamState} (hp : st'.pipelines = st.pipelines)
    (hg : st'.tokenGen = st.tokenGen) : aliveCount st' = aliveCount st := by
  simp [aliveCount, hp, hg]

lemma pipeInv_of_eq {st st' : StreamState} (hp : st'.pipelines = st.pipelines)
    (hg : st'.tokenGen = st.tokenGen) (h : PipeInv st) : PipeInv st' := by
  refine ⟨?_, ?_⟩
  · rw [hp, hg]; exact h.1
  · rw [aliveCount_congr hp hg]; exact h.2

lemma stop_alive_zero {st : StreamState} (h : st.loggedIn = true)
    (hb : ∀ p ∈ st.pipelines, p.1 ≤ st.tokenGen) :
    aliveCount (stopStreaming st).1 = 0 := by
  obtain ⟨sb1, _, _, _, _, _, _, _⟩ := stop_keeps st
  obtain ⟨si1, _⟩ := stop_in_keeps h
  simp only [aliveCount, sb1, si1]
  rw [List.length_eq_zero, List.filter_eq_nil_iff]
  intro p hp
  have := hb p hp
  simp only [decide_eq_true_eq]
  omega

lemma pipeInv_stop {st : StreamState} (h : PipeInv st) : PipeInv (stopStreaming st).1 := by
  rcases hl : st.loggedIn
  · rw [stop_out hl]; exact h
  · obtain ⟨sb1, _, _, _, _, _, _, _⟩ := stop_keeps st
    obtain ⟨si1, _⟩ := stop_in_keeps hl
    refine ⟨?_, ?_⟩
    · rw [sb1, si1]
      intro p hp
      have := h.1 p hp
      omega
    · rw [stop_alive_zero hl h.1]
      omega

lemma pipeInv_leave {st : StreamState} (h : PipeInv st) : PipeInv (leaveVoiceChannel st).1 := by
  rcases hl : st.loggedIn
  · rw [leave_out hl]; exact h
  · rw [leave_in hl]
    exact pipeInv_of_eq rfl rfl (pipeInv_stop h)

lemma pipeInv_join {st : StreamState} {g c : String} (h : PipeInv st) :
    PipeInv (joinVoiceChannel st g c).1 := by
  obtain ⟨j1, j2, _⟩ := join_keeps st g c
  exact pipeInv_of_eq j1 j2 h

lemma pipeInv_start {st : StreamState} {ch : ChannelEntry} (h : PipeInv st)
    (hz : aliveCount st = 0) : PipeInv (startStreaming st ch).1 := by
  rcases hl : st.loggedIn
  · rw [start_out hl]; exact h
  · obtain ⟨k1, k2, _⟩ := start_keeps ch hl
    refine ⟨?_, ?_⟩
    · rw [k1, k2]
      intro p hp
      rcases List.mem_append.mp hp with hp | hp
      · exact h.1 p hp
      · rw [List.mem_singleton] at hp
        subst hp
        simp
    · simp only [aliveCount, k1, k2, List.filter_append, List.length_append]
      have hz0 : (st.pipelines.filter (fun p => p.1 = st.tokenGen)).length = 0 := hz
      simp [hz0]

lemma pipeInv_tick {st : StreamState} {lookup : Option (List Member)} (h : PipeInv st) :
    PipeInv (monitorTick st lookup).1 := by
  rcases hv : st.voiceConn with _ | v
  · simpa [monitorTick, hv] using h
  · rcases lookup with _ | mems
    · simpa [monitorTick, hv] using h
    · by_cases hc : nonBotCount mems = 1
      · simp only [monitorTick, hv, hc, if_pos]
        by_cases hge :
            jsGeOpt ({ st with streamAloneTime := st.streamAloneTime + 10 }.streamAloneTime)
              (thresholdSeconds { st with streamAloneTime := st.streamAloneTime + 10 }.cfg) = true
        · simp only [hge, if_pos]
          exact pipeInv_leave (pipeInv_stop (pipeInv_of_eq rfl rfl h))
        · simp only [hge]
          simp only [Bool.not_eq_true] at hge
          simp [hge]
          exact pipeInv_of_eq rfl rfl h
      · simp only [monitorTick, hv, hc]
        simp only [if_false]
        exact pipeInv_of_eq rfl rfl h

lemma stop_alive_path {st : StreamState} {ch : ChannelEntry} {vc : String} :
    PipeInv st → PipeInv (execStreamPath st ch vc).1 := by
  intro h
  simp only [execStreamPath]
  obtain ⟨i1, i2, _, _, _, _, _, i8, _⟩ := init_keeps st
  have hA : PipeInv (initializeStreamer st).1 := pipeInv_of_eq i1 i2 h
  have hB : PipeInv (stopStreaming (initializeStreamer st).1).1 := pipeInv_stop hA
  obtain ⟨jb1, jb2, _, _, _, _, _, jb8, _⟩ :=
    joinBlock_keeps (stopStreaming (initializeStreamer st).1).1 vc
  have hC : PipeInv (joinBlock (stopStreaming (initializeStreamer st).1).1 vc).1 :=
    pipeInv_of_eq jb1 jb2 hB
  rcases hcl : (joinBlock (stopStreaming (initializeStreamer st).1).1 vc).1.loggedIn
  · rw [start_out hcl]; exact hC
  · obtain ⟨sb1, sb2, _⟩ := stop_keeps (initializeStreamer st).1
    have hAL : (initializeStreamer st).1.loggedIn = true := by
      rw [jb8, sb2] at hcl; exact hcl
    have hz : aliveCount (joinBlock (stopStreaming (initializeStreamer st).1).1 vc).1 = 0 := by
      rw [aliveCount_congr jb1 jb2]
      exact stop_alive_zero hAL hA.1
    exact pipeInv_start hC hz

lemma pipeInv_exec {st : StreamState} {nm vc : String} {db : List ChannelEntry}
    (h : PipeInv st) : PipeInv (executeStreamChannel st nm vc db).1 := by
  by_cases h0 : nm = ""
  · subst h0; rw [exec_noName]; exact h
  · rcases hf : findChannel db nm with _ | ch
    · rw [exec_notFound h0 hf]; exact h
    · rcases hid : jsFalsyStr ch.tvg_id
      · by_cases hv : vc = ""
        · subst hv; rw [exec_noVoice h0 hf hid]; exact h
        · rw [exec_main h0 hf hid hv]
          exact stop_alive_path h
      · rw [exec_falsyId h0 hf hid]; exact h

lemma pipeInv_applyOp {st : StreamState} (op : Op) (h : PipeInv st) :
    PipeInv (applyOp st op) := by
  cases op with
  | execOp nm vc db => exact pipeInv_exec h
  | stopOp => exact pipeInv_stop h
  | leaveOp => exact pipeInv_leave h
  | joinOp g c => exact pipeInv_join h
  | tickOp l => exact pipeInv_tick h

lemma pipeInv_runOps {st : StreamState} (ops : List Op) (h : PipeInv st) :
    PipeInv (runOps st ops) := by
  induction ops generalizing st with
  | nil => exact h
  | cons op ops ih => exact ih (pipeInv_applyOp op h)

lemma pipeInv_initial (cfg : Config) (lw jw : Bool) : PipeInv (initialState cfg lw jw) := by
  refine ⟨?_, ?_⟩ <;> simp [initialState, aliveCount]

/-! ### Preservation of the monitor invariant -/

lemma monInv_of_eq {st st' : StreamState} (h1 : st'.activeTimers = st.activeTimers)
    (h2 : st'.streamSpectatorMonitor = st.streamSpectatorMonitor)
    (h3 : st'.currentChannelEntry = st.currentChannelEntry)
    (h4 : st'.nextTimerId = st.nextTimerId) (h : MonInv st) : MonInv st' := by
  refine ⟨?_, ?_, ?_⟩
  · rw [h1, monitorList, h2]; exact h.1
  · rw [h2, h3]; exact h.2.1
  · intro tid htid
    rw [h2] at htid
    rw [h4]
    exact h.2.2 tid htid

lemma monInv_stop {st : StreamState} (h : MonInv st) : MonInv (stopStreaming st).1 := by
  rcases hl : st.loggedIn
  · rw [stop_out hl]; exact h
  · rcases hc : st.currentChannelEntry with _ | ch
    · rw [stop_noChannel hl hc]
      exact monInv_of_eq rfl rfl (by simp [hc]) rfl h
    · rcases hm : st.streamSpectatorMonitor with _ | tid
      · rw [stop_nomon hl hc hm]
        refine ⟨?_, ?_, ?_⟩
        · have := h.1
          simp [monitorList, hm] at this ⊢
          exact this
        · simp [hm]
        · intro tid htid
          simp [hm] at htid
      · rw [stop_mon hl hc hm]
        refine ⟨?_, ?_, ?_⟩
        · have h1 := h.1
          rw [monitorList, hm] at h1
          simp [monitorList, h1]
        · simp
        · intro tid htid
          simp at htid

lemma monInv_leave {st : StreamState} (h : MonInv st) : MonInv (leaveVoiceChannel st).1 := by
  rcases hl : st.loggedIn
  · rw [leave_out hl]; exact h
  · rw [leave_in hl]
    exact monInv_of_eq rfl rfl rfl rfl (monInv_stop h)

lemma monInv_join {st : StreamState} {g c : String} (h : MonInv st) :
    MonInv (joinVoiceChannel st g c).1 := by
  obtain ⟨_, _, j3, j4, j5, _, j7, _⟩ := join_keeps st g c
  exact monInv_of_eq j5 j4 j3 j7 h

lemma monInv_joinBlock {st : StreamState} {vc : String} (h : MonInv st) :
    MonInv (joinBlock st vc).1 := by
  obtain ⟨_, _, j3, j4, j5, _, j7, _⟩ := joinBlock_keeps st vc
  exact monInv_of_eq j5 j4 j3 j7 h

lemma monInv_init {st : StreamState} (h : MonInv st) : MonInv (initializeStreamer st).1 := by
  obtain ⟨_, _, i3, i4, i5, _, i7, _⟩ := init_keeps st
  exact monInv_of_eq i5 i4 i3 i7 h

lemma monInv_start {st : StreamState} {ch : ChannelEntry} (h : MonInv st) :
    MonInv (startStreaming st ch).1 := by
  rcases hl : st.loggedIn
  · rw [start_out hl]; exact h
  · rcases hm : st.streamSpectatorMonitor with _ | tid
    · rw [start_nomon hl hm]
      refine ⟨?_, ?_, ?_⟩
      · have h1 := h.1
        rw [monitorList, hm] at h1
        simp [monitorList, h1]
      · simp
      · intro tid htid
        simp at htid ⊢
        omega
    · rw [start_mon hl hm]
      refine ⟨?_, ?_, ?_⟩
      · have h1 := h.1
        rw [monitorList, hm] at h1
        simp [monitorList, h1]
      · simp
      · intro tid2 htid
        simp at htid ⊢
        omega

lemma monInv_tick {st : StreamState} {lookup : Option (List Member)} (h : MonInv st) :
    MonInv (monitorTick st lookup).1 := by
  rcases hv : st.voiceConn with _ | v
  · simpa [monitorTick, hv] using h
  · rcases lookup with _ | mems
    · simpa [monitorTick, hv] using h
    · by_cases hc : nonBotCount mems = 1
      · simp only [monitorTick, hv, hc, if_pos]
        by_cases hge :
            jsGeOpt ({ st with streamAloneTime := st.streamAloneTime + 10 }.streamAloneTime)
              (thresholdSeconds { st with streamAloneTime := st.streamAloneTime + 10 }.cfg) = true
        · simp only [hge, if_pos]
          exact monInv_leave (monInv_stop (monInv_of_eq rfl rfl rfl rfl h))
        · simp only [hge]
          simp only [Bool.not_eq_true] at hge
          simp [hge]
          exact monInv_of_eq rfl rfl rfl rfl h
      · simp only [monitorTick, hv, hc]
        simp only [if_false]
        exact monInv_of_eq rfl rfl rfl rfl h

lemma monInv_path {st : StreamState} {ch : ChannelEntry} {vc : String} (h : MonInv st) :
    MonInv (execStreamPath st ch vc).1 := by
  simp only [execStreamPath]
  exact monInv_start (monInv_joinBlock (monInv_stop (monInv_init h)))

lemma monInv_exec {st : StreamState} {nm vc : String} {db : List ChannelEntry}
    (h : MonInv st) : MonInv (executeStreamChannel st nm vc db).1 := by
  by_cases h0 : nm = ""
  · subst h0; rw [exec_noName]; exact h
  · rcases hf : findChannel db nm with _ | ch
    · rw [exec_notFound h0 hf]; exact h
    · rcases hid : jsFalsyStr ch.tvg_id
      · by_cases hv : vc = ""
        · subst hv; rw [exec_noVoice h0 hf hid]; exact h
        · rw [exec_main h0 hf hid hv]
          exact monInv_path h
      · rw [exec_falsyId h0 hf hid]; exact h

lemma monInv_applyOp {st : StreamState} (op : Op) (h : MonInv st) :
    MonInv (applyOp st op) := by
  cases op with
  | execOp nm vc db => exact monInv_exec h
  | stopOp => exact monInv_stop h
  | leaveOp => exact monInv_leave h
  | joinOp g c => exact monInv_join h
  | tickOp l => exact monInv_tick h

lemma monInv_runOps {st : StreamState} (ops : List Op) (h : MonInv st) :
    MonInv (runOps st ops) := by
  induction ops generalizing st with
  | nil => exact h
  | cons op ops ih => exact ih (monInv_applyOp op h)

lemma monInv_initial (cfg : Config) (lw jw : Bool) : MonInv (initialState cfg lw jw) := by
  refine ⟨?_, ?_, ?_⟩ <;> simp [initialState, monitorList]

/-! ### The spectator monitor tick and run -/

lemma nonBot_split (selfId : String) (mems : List Member) :
    nonBotCount mems
      = (mems.filter (fun m => !m.bot && m.id == selfId)).length + humanCount selfId mems := by
  unfold nonBotCount humanCount
  induction mems with
  | nil => rfl
  | cons x xs ih =>
    rcases hb : x.bot <;> rcases hs : x.id == selfId <;>
      simp [List.filter_cons, hb, hs, ih] <;> omega

lemma nonBot_one_iff {selfId : String} {mems : List Member}
    (h : selfPresent selfId mems) :
    nonBotCount mems = 1 ↔ humanCount selfId mems = 0 := by
  have := nonBot_split selfId mems
  unfold selfPresent at h
  omega

lemma stop_no_marker (st : StreamState) :
    Ev.monitorStopCall ∉ (stopStreaming st).2 ∧ Ev.monitorLeaveCall ∉ (stopStreaming st).2 := by
  rcases hl : st.loggedIn
  · simp [stop_out hl]
  · rcases hc : st.currentChannelEntry with _ | ch
    · simp [stop_noChannel hl hc]
    · rcases hm : st.streamSpectatorMonitor with _ | tid
      · simp [stop_nomon hl hc hm]
      · simp [stop_mon hl hc hm]

lemma leave_no_marker (st : StreamState) :
    Ev.monitorLeaveCall ∉ (leaveVoiceChannel st).2 ∧ Ev.monitorStopCall ∉ (leaveVoiceChannel st).2 := by
  rcases hl : st.loggedIn
  · simp [leave_out hl]
  · have hs := stop_no_marker st
    rw [leave_in hl]
    simp [hs.1, hs.2]

lemma countEv_not_mem {evs : List Ev} {e : Ev} (h : e ∉ evs) : countEv evs e = 0 := by
  unfold countEv
  rw [List.length_eq_zero, List.filter_eq_nil_iff]
  intro a ha
  simp only [decide_eq_true_eq]
  intro hae
  exact h (hae ▸ ha)

lemma countEv_append (a b : List Ev) (e : Ev) :
    countEv (a ++ b) e = countEv a e + countEv b e := by
  simp [countEv, List.filter_append]

lemma st_set_alone {st : StreamState} {a b : Int} (h : a = b) :
    ({ st with streamAloneTime := a } : StreamState)
      = { st with streamAloneTime := b } := by rw [h]

lemma st_set_alone_twice (st : StreamState) (a b : Int) :
    ({ ({ st with streamAloneTime := a } : StreamState) with streamAloneTime := b } : StreamState)
      = { st with streamAloneTime := b } := rfl

lemma tick_alone {st : StreamState} {v : String} {mems : List Member} {T : Int}
    (hv : st.voiceConn = some v) (hcnt : nonBotCount mems = 1)
    (hT : st.cfg.DEFAULT_STREAM_TIMEOUT = some T)
    (hlt : st.streamAloneTime + 10 < T * 60) :
    monitorTick st (some mems)
      = ({ st with streamAloneTime := st.streamAloneTime + 10 },
         [Ev.log .debug "No spectators"]) := by
  have hno : ¬ (T * 60 ≤ st.streamAloneTime + 10) := by omega
  simp [monitorTick, hv, hcnt, jsGeOpt, thresholdSeconds, hT, hno]

lemma tick_reset (st : StreamState) {v : String} {mems : List Member}
    (hv : st.voiceConn = some v) (hcnt : ¬ nonBotCount mems = 1) :
    monitorTick st (some mems) = ({ st with streamAloneTime := 0 }, []) := by
  simp [monitorTick, hv, hcnt]

lemma tick_trigger {st : StreamState} {v : String} {mems : List Member} {T : Int}
    {ch : ChannelEntry} {tid : Nat}
    (hl : st.loggedIn = true) (hc : st.currentChannelEntry = some ch)
    (hm : st.streamSpectatorMonitor = some tid) (hv : st.voiceConn = some v)
    (hT : st.cfg.DEFAULT_STREAM_TIMEOUT = some T) (hcnt : nonBotCount mems = 1)
    (hge : T * 60 ≤ st.streamAloneTime + 10) :
    (monitorTick st (some mems)).1.streamSpectatorMonitor = none ∧
    (monitorTick st (some mems)).1.currentChannelEntry = none ∧
    (monitorTick st (some mems)).1.voiceConn = none ∧
    (monitorTick st (some mems)).1.streamAloneTime = 0 ∧
    countEv (monitorTick st (some mems)).2 Ev.monitorStopCall = 1 ∧
    countEv (monitorTick st (some mems)).2 Ev.monitorLeaveCall = 1 := by
  obtain ⟨lI, lW, jW, tG, cE, sM, nT, aT, sA, pl, vC, gC, cf⟩ := st
  dsimp only at hl hc hm hv hT hge
  subst hl hc hm hv
  have hgeb : jsGeOpt (sA + 10) (thresholdSeconds cf) = true := by
    simp [jsGeOpt, thresholdSeconds, hT]
    omega
  simp [monitorTick, hcnt, hgeb, stopStreaming, leaveVoiceChannel, countEv]

lemma runMonitor_stopped {st : StreamState} (h : st.streamSpectatorMonitor = none)
    (ins : List (Option (List Member))) : runMonitor st ins = (st, []) := by
  cases ins <;> simp [runMonitor, h]

lemma runMonitor_cons {st : StreamState} {tid : Nat} {x : Option (List Member)}
    {xs : List (Option (List Member))} (h : st.streamSpectatorMonitor = some tid) :
    runMonitor st (x :: xs)
      = ((runMonitor (monitorTick st x).1 xs).1,
         (monitorTick st x).2 ++ (runMonitor (monitorTick st x).1 xs).2) := by
  simp [runMonitor, h]

lemma run_alone {T : Int} :
    ∀ (ins : List (Option (List Member))) (st : StreamState),
      MonitorRunning st T → AloneIns ins →
      st.streamAloneTime + 10 * ins.length < T * 60 →
      (runMonitor st ins).1
        = { st with streamAloneTime := st.streamAloneTime + 10 * ins.length } ∧
      (runMonitor st ins).2 = List.replicate ins.length (Ev.log .debug "No spectators") := by
  intro ins
  induction ins with
  | nil =>
    intro st hR hA hlt
    constructor
    · simp [runMonitor]
    · rfl
  | cons x xs ih =>
    intro st hR hA hlt
    obtain ⟨hl, hce, hm, hvc, hT⟩ := hR
    obtain ⟨mems, rfl, hcnt⟩ := hA x (by simp)
    obtain ⟨tid, hmon⟩ := Option.isSome_iff_exists.mp hm
    obtain ⟨v, hv⟩ := Option.isSome_iff_exists.mp hvc
    have hlt1 : st.streamAloneTime + 10 < T * 60 := by
      have hpos : (0 : Int) ≤ 10 * xs.length := by positivity
      simp only [List.length_cons] at hlt
      push_cast at hlt
      omega
    rw [runMonitor_cons hmon, tick_alone hv hcnt hT hlt1]
    have hR1 : MonitorRunning { st with streamAloneTime := st.streamAloneTime + 10 } T :=
      ⟨hl, hce, hm, hvc, hT⟩
    have hA1 : AloneIns xs := fun y hy => hA y (by simp [hy])
    have hlt2 : ({ st with streamAloneTime := st.streamAloneTime + 10 } :
        StreamState).streamAloneTime + 10 * xs.length < T * 60 := by
      simp only [List.length_cons] at hlt
      push_cast at hlt ⊢
      omega
    obtain ⟨ih1, ih2⟩ := ih { st with streamAloneTime := st.streamAloneTime + 10 } hR1 hA1 hlt2
    constructor
    · rw [ih1, st_set_alone_twice]
      apply st_set_alone
      dsimp only
      simp only [List.length_cons]
      push_cast
      ring
    · rw [ih2]
      simp [List.replicate_succ]

lemma run_to_stop {T : Int} :
    ∀ (ins : List (Option (List Member))) (st : StreamState),
      MonitorRunning st T → AloneIns ins →
      st.streamAloneTime < T * 60 →
      T * 60 ≤ st.streamAloneTime + 10 * ins.length →
      countEv (runMonitor st ins).2 Ev.monitorStopCall = 1 ∧
      countEv (runMonitor st ins).2 Ev.monitorLeaveCall = 1 ∧
      (runMonitor st ins).1.streamSpectatorMonitor = none := by
  intro ins
  induction ins with
  | nil =>
    intro st hR hA hlt hge
    simp only [List.length_nil] at hge
    omega
  | cons x xs ih =>
    intro st hR hA hlt hge
    obtain ⟨hl, hce, hm, hvc, hT⟩ := hR
    obtain ⟨mems, rfl, hcnt⟩ := hA x (by simp)
    obtain ⟨tid, hmon⟩ := Option.isSome_iff_exists.mp hm
    obtain ⟨v, hv⟩ := Option.isSome_iff_exists.mp hvc
    obtain ⟨ch, hch⟩ := Option.isSome_iff_exists.mp hce
    rw [runMonitor_cons hmon]
    by_cases htr : T * 60 ≤ st.streamAloneTime + 10
    · obtain ⟨t1, t2, t3, t4, t5, t6⟩ := tick_trigger hl hch hmon hv hT hcnt htr
      rw [runMonitor_stopped t1 xs]
      simp only [List.append_nil]
      exact ⟨t5, t6, t1⟩
    · have hlt1 : st.streamAloneTime + 10 < T * 60 := by omega
      rw [tick_alone hv hcnt hT hlt1]
      have hR1 : MonitorRunning { st with streamAloneTime := st.streamAloneTime + 10 } T :=
        ⟨hl, hce, hm, hvc, hT⟩
      have hA1 : AloneIns xs := fun y hy => hA y (by simp [hy])
      obtain ⟨ih1, ih2, ih3⟩ := ih { st with streamAloneTime := st.streamAloneTime + 10 }
        hR1 hA1 (by simpa using hlt1)
        (by simp only [List.length_cons] at hge; push_cast at hge ⊢; omega)
      refine ⟨?_, ?_, ih3⟩
      · dsimp only
        rw [countEv_append, ih1]
        simp [countEv]
      · dsimp only
        rw [countEv_append, ih2]
        simp [countEv]

lemma runMonitor_append :
    ∀ (xs ys : List (Option (List Member))) (st : StreamState),
      runMonitor st (xs ++ ys)
        = ((runMonitor (runMonitor st xs).1 ys).1,
           (runMonitor st xs).2 ++ (runMonitor (runMonitor st xs).1 ys).2) := by
  intro xs
  induction xs with
  | nil => intro ys st; simp [runMonitor]
  | cons x xs ih =>
    intro ys st
    rcases hmon : st.streamSpectatorMonitor with _ | tid
    · rw [runMonitor_stopped hmon, runMonitor_stopped hmon]
      simp [runMonitor_stopped hmon ys]
    · rw [List.cons_append, runMonitor_cons hmon, runMonitor_cons hmon, ih]
      simp

lemma stop_iter_facts :
    ∀ (n : Nat) (st : StreamState), st.loggedIn = true → st.currentChannelEntry = none →
      ((fun s => (stopStreaming s).1)^[n] st).currentChannelEntry = none ∧
      ((fun s => (stopStreaming s).1)^[n] st).loggedIn = true ∧
      ((fun s => (stopStreaming s).1)^[n] st).tokenGen = st.tokenGen + n ∧
      ((fun s => (stopStreaming s).1)^[n] st).pipelines = st.pipelines ∧
      ((fun s => (stopStreaming s).1)^[n] st).streamSpectatorMonitor
        = st.streamSpectatorMonitor ∧
      ((fun s => (stopStreaming s).1)^[n] st).streamAloneTime = st.streamAloneTime ∧
      ((fun s => (stopStreaming s).1)^[n] st).voiceConn = st.voiceConn := by
  intro n
  induction n with
  | zero => intro st h1 h2; simp [h1, h2]
  | succ n ih =>
    intro st h1 h2
    simp only [Function.iterate_succ_apply]
    rw [stop_noChannel h1 h2]
    obtain ⟨a1, a2, a3, a4, a5, a6, a7⟩ := ih { st with tokenGen := st.tokenGen + 1 } h1 h2
    refine ⟨a1, a2, ?_, a4, a5, a6, a7⟩
    rw [a3]
    dsimp only
    omega

lemma exec_order {st : StreamState} {nm vc : String} {db : List ChannelEntry}
    {ch : ChannelEntry} (hL : st.loggedIn = true) (h0 : ¬ nm = "")
    (hf : findChannel db nm = some ch) (hid : jsFalsyStr ch.tvg_id = false)
    (hv : ¬ vc = "") :
    List.Sublist
      [Ev.abortToken st.tokenGen, Ev.delayMs 1000, Ev.prepareCall (st.tokenGen + 1) ch.url]
      (executeStreamChannel st nm vc db).2.1 := by
  rw [exec_main h0 hf hid hv]
  exact List.Sublist.cons _ (execPath_order hL)

lemma exec_state_keeps {st : StreamState} {nm vc : String} {db : List ChannelEntry}
    {ch : ChannelEntry} (hL : st.loggedIn = true) (h0 : ¬ nm = "")
    (hf : findChannel db nm = some ch) (hid : jsFalsyStr ch.tvg_id = false)
    (hv : ¬ vc = "") :
    (executeStreamChannel st nm vc db).1.pipelines
      = st.pipelines ++ [(st.tokenGen + 1, ch.url)] ∧
    (executeStreamChannel st nm vc db).1.tokenGen = st.tokenGen + 1 ∧
    (executeStreamChannel st nm vc db).1.loggedIn = true ∧
    (executeStreamChannel st nm vc db).2.2.success = true := by
  rw [exec_main h0 hf hid hv]
  obtain ⟨k1, k2, _, _, _, _, k7, _⟩ := execPath_keeps ch vc hL
  exact ⟨k1, k2, k7, rfl⟩

/-! ### The claims -/

/-- Claim C1: at most one transcoding pipeline is alive at any instant over
every sequence of operations from the module initial state; every
logged-in start request aborts the current cancellation token and awaits
the fixed grace delay before it prepares the new pipeline; and a start of
channel A immediately followed by a start of channel B leaves exactly the
pipeline of B alive, with the token of the session of A aborted (and the
grace delay awaited) before the prepare call of B. -/
theorem C1_single_pipeline :
    (∀ (cfg : Config) (lw jw : Bool) (ops : List Op),
      aliveCount (runOps (initialState cfg lw jw) ops) ≤ 1) ∧
    (∀ (st : StreamState) (nm vc : String) (db : List ChannelEntry) (ch : ChannelEntry),
      st.loggedIn = true → ¬ nm = "" → findChannel db nm = some ch →
      jsFalsyStr ch.tvg_id = false → ¬ vc = "" →
      List.Sublist
        [Ev.abortToken st.tokenGen, Ev.delayMs 1000,
         Ev.prepareCall (st.tokenGen + 1) ch.url]
        (executeStreamChannel st nm vc db).2.1) ∧
    (∀ (st : StreamState) (nmA nmB vc : String) (db : List ChannelEntry)
        (A B : ChannelEntry),
      st.loggedIn = true → st.pipelines = [] →
      ¬ nmA = "" → findChannel db nmA = some A → jsFalsyStr A.tvg_id = false →
      ¬ nmB = "" → findChannel db nmB = some B → jsFalsyStr B.tvg_id = false →
      ¬ vc = "" →
      (executeStreamChannel (executeStreamChannel st nmA vc db).1 nmB vc db).1.pipelines
        = [(st.tokenGen + 1, A.url), (st.tokenGen + 2, B.url)] ∧
      (executeStreamChannel (executeStreamChannel st nmA vc db).1 nmB vc db).1.tokenGen
        = st.tokenGen + 2 ∧
      aliveCount (executeStreamChannel (executeStreamChannel st nmA vc db).1 nmB vc db).1
        = 1 ∧
      List.Sublist
        [Ev.abortToken (st.tokenGen + 1), Ev.delayMs 1000,
         Ev.prepareCall (st.tokenGen + 2) B.url]
        (executeStreamChannel (executeStreamChannel st nmA vc db).1 nmB vc db).2.1) := by
  refine ⟨?_, ?_, ?_⟩
  · intro cfg lw jw ops
    exact (pipeInv_runOps ops (pipeInv_initial cfg lw jw)).2
  · intro st nm vc db ch hL h0 hf hid hv
    exact exec_order hL h0 hf hid hv
  · intro st nmA nmB vc db A B hL hp h0A hfA hidA h0B hfB hidB hv
    obtain ⟨a1, a2, a3, _⟩ := exec_state_keeps hL h0A hfA hidA hv
    obtain ⟨b1, b2, b3, _⟩ := exec_state_keeps a3 h0B hfB hidB hv
    rw [a1, a2, hp] at b1
    rw [a2] at b2
    refine ⟨by simpa using b1, by simpa using b2, ?_, ?_⟩
    · have hne : ¬ (st.tokenGen + 1 = st.tokenGen + 2) := by omega
      simp only [aliveCount, b1, b2]
      simp [hne]
    · have horder := exec_order a3 h0B hfB hidB hv
      rw [a2] at horder
      exact horder

/-- Witness for C1: a concrete operation sequence from the initial state and
the concrete back-to-back start scenario for two sample channels. -/
theorem C1_single_pipeline_witness :
    aliveCount (runOps (initialState sampleConfig true true)
      [Op.execOp "BBC One" "123" sampleDb, Op.execOp "BBC Two" "123" sampleDb,
       Op.stopOp]) ≤ 1 ∧
    (executeStreamChannel (executeStreamChannel readyState "BBC One" "123" sampleDb).1
        "BBC Two" "123" sampleDb).1.pipelines
      = [(readyState.tokenGen + 1, chanA.url), (readyState.tokenGen + 2, chanB.url)] ∧
    aliveCount (executeStreamChannel
        (executeStreamChannel readyState "BBC One" "123" sampleDb).1
        "BBC Two" "123" sampleDb).1 = 1 :=
  have h := C1_single_pipeline.2.2 readyState "BBC One" "BBC Two" "123" sampleDb chanA chanB
    rfl rfl (by decide) (by decide) (by decide) (by decide) (by decide) (by decide) (by decide)
  ⟨C1_single_pipeline.1 sampleConfig true true
     [Op.execOp "BBC One" "123" sampleDb, Op.execOp "BBC Two" "123" sampleDb, Op.stopOp],
   h.1, h.2.2.1⟩

/-- Claim C2: the spectator monitor polls on a 10000 ms interval and counts
the non-bot members of the connected call; since the streaming client is
itself a non-bot user present in the call, the human audience is empty
exactly when that count is 1.  Below the threshold an empty-audience tick
adds 10 seconds to the alone-time accumulator and a tick with a human
audience resets it to 0.  Starting from a zero accumulator, a run of
empty-audience ticks too short to reach the configured threshold invokes
no stop, while a run long enough to reach the threshold (minutes times
60 seconds) invokes stopStreaming and leaveVoiceChannel exactly once and
ends the polling; and a human appearing before the threshold resets the
accumulator so that no stop occurs at the threshold. -/
theorem C2_audience_monitor :
    (∀ st : StreamState,
      ∃ tid, Ev.timerCreated tid 10000 ∈ (startSpectatorMonitoring st).2) ∧
    (∀ (selfId : String) (mems : List Member), selfPresent selfId mems →
      (nonBotCount mems = 1 ↔ humanCount selfId mems = 0)) ∧
    (∀ (st : StreamState) (T : Int) (v selfId : String) (mems : List Member),
      st.voiceConn = some v → st.cfg.DEFAULT_STREAM_TIMEOUT = some T →
      selfPresent selfId mems → humanCount selfId mems = 0 →
      st.streamAloneTime + 10 < T * 60 →
      monitorTick st (some mems)
        = ({ st with streamAloneTime := st.streamAloneTime + 10 },
           [Ev.log .debug "No spectators"])) ∧
    (∀ (st : StreamState) (v selfId : String) (mems : List Member),
      st.voiceConn = some v → selfPresent selfId mems → humanCount selfId mems ≠ 0 →
      monitorTick st (some mems) = ({ st with streamAloneTime := 0 }, [])) ∧
    (∀ (st : StreamState) (T : Int) (ins : List (Option (List Member))),
      MonitorRunning st T → AloneIns ins → st.streamAloneTime = 0 →
      10 * (ins.length : Int) < T * 60 →
      countEv (runMonitor st ins).2 Ev.monitorStopCall = 0 ∧
      (runMonitor st ins).1.streamAloneTime = 10 * ins.length) ∧
    (∀ (st : StreamState) (T : Int) (ins : List (Option (List Member))),
      MonitorRunning st T → AloneIns ins → st.streamAloneTime = 0 → 0 < T →
      T * 60 ≤ 10 * (ins.length : Int) →
      countEv (runMonitor st ins).2 Ev.monitorStopCall = 1 ∧
      countEv (runMonitor st ins).2 Ev.monitorLeaveCall = 1 ∧
      (runMonitor st ins).1.streamSpectatorMonitor = none ∧
      (∀ more, runMonitor (runMonitor st ins).1 more = ((runMonitor st ins).1, []))) ∧
    (∀ (st : StreamState) (T : Int) (v : String)
        (xs ys : List (Option (List Member))) (mems : List Member),
      MonitorRunning st T → st.streamAloneTime = 0 → st.voiceConn = some v →
      AloneIns xs → AloneIns ys → ¬ nonBotCount mems = 1 →
      10 * (xs.length : Int) < T * 60 → 10 * (ys.length : Int) < T * 60 →
      countEv (runMonitor st (xs ++ some mems :: ys)).2 Ev.monitorStopCall = 0 ∧
      (runMonitor st (xs ++ some mems :: ys)).1.streamAloneTime = 10 * ys.length) := by
  refine ⟨?_, ?_, ?_, ?_, ?_, ?_, ?_⟩
  · intro st
    rcases hm : st.streamSpectatorMonitor with _ | tid
    · exact ⟨st.nextTimerId, by simp [startSpectatorMonitoring, hm]⟩
    · exact ⟨st.nextTimerId, by simp [startSpectatorMonitoring, hm]⟩
  · intro selfId mems h
    exact nonBot_one_iff h
  · intro st T v selfId mems hv hT hself hhum hlt
    exact tick_alone hv ((nonBot_one_iff hself).mpr hhum) hT hlt
  · intro st v selfId mems hv hself hhum
    exact tick_reset st hv (fun hc => hhum ((nonBot_one_iff hself).mp hc))
  · intro st T ins hR hA h0 hlt
    obtain ⟨e1, e2⟩ := run_alone ins st hR hA (by rw [h0]; simpa using hlt)
    constructor
    · rw [e2]
      apply countEv_not_mem
      simp [List.mem_replicate]
    · rw [e1]
      dsimp only
      rw [h0]
      simp
  · intro st T ins hR hA h0 hT0 hge
    have hmon0 := hR.2.2.1
    obtain ⟨c1, c2, c3⟩ := run_to_stop ins st hR hA
      (by rw [h0]; omega) (by rw [h0]; simpa using hge)
    exact ⟨c1, c2, c3, fun more => runMonitor_stopped c3 more⟩
  · intro st T v xs ys mems hR h0 hv hAx hAy hcnt hltx hlty
    obtain ⟨hl, hce, hm, hvc, hT⟩ := hR
    have hR0 : MonitorRunning st T := ⟨hl, hce, hm, hvc, hT⟩
    obtain ⟨e1, e2⟩ := run_alone xs st hR0 hAx (by rw [h0]; simpa using hltx)
    rw [runMonitor_append xs (some mems :: ys) st, e1, e2]
    obtain ⟨tid, hmon⟩ := Option.isSome_iff_exists.mp hm
    have hmon1 : ({ st with streamAloneTime := st.streamAloneTime + 10 * xs.length } :
        StreamState).streamSpectatorMonitor = some tid := hmon
    rw [runMonitor_cons hmon1,
      tick_reset { st with streamAloneTime := st.streamAloneTime + 10 * xs.length } hv hcnt]
    have hR2 : MonitorRunning
        ({ ({ st with streamAloneTime := st.streamAloneTime + 10 * xs.length } : StreamState)
           with streamAloneTime := 0 }) T := ⟨hl, hce, hm, hvc, hT⟩
    obtain ⟨f1, f2⟩ := run_alone ys _ hR2 hAy (by dsimp only; simpa using hlty)
    rw [f1, f2]
    constructor
    · rw [countEv_append, countEv_append]
      have g1 : ∀ n : Nat,
          countEv (List.replicate n (Ev.log .debug "No spectators")) Ev.monitorStopCall = 0 :=
        fun n => countEv_not_mem (by simp [List.mem_replicate])
      simp [g1, countEv]
    · dsimp only
      simp

/-- Witness for C2 with a one minute threshold: the human-audience bridge at
the concrete member list, six consecutive alone ticks triggering exactly
one stop and leave, and a human appearing after two ticks preventing the
stop at the sixth tick. -/
theorem C2_audience_monitor_witness :
    (nonBotCount [selfMember] = 1 ↔ humanCount "streamer" [selfMember] = 0) ∧
    countEv (runMonitor monitorState (List.replicate 6 aloneLookup)).2
      Ev.monitorStopCall = 1 ∧
    countEv (runMonitor monitorState (List.replicate 6 aloneLookup)).2
      Ev.monitorLeaveCall = 1 ∧
    (runMonitor monitorState (List.replicate 6 aloneLookup)).1.streamSpectatorMonitor
      = none ∧
    countEv (runMonitor monitorState
        (List.replicate 2 aloneLookup ++ some [selfMember, humanMember]
          :: List.replicate 3 aloneLookup)).2 Ev.monitorStopCall = 0 :=
  have hA6 : AloneIns (List.replicate 6 aloneLookup) := fun x hx =>
    ⟨[selfMember], by rw [List.eq_of_mem_replicate hx]; rfl, by decide⟩
  have hA2 : AloneIns (List.replicate 2 aloneLookup) := fun x hx =>
    ⟨[selfMember], by rw [List.eq_of_mem_replicate hx]; rfl, by decide⟩
  have hA3 : AloneIns (List.replicate 3 aloneLookup) := fun x hx =>
    ⟨[selfMember], by rw [List.eq_of_mem_replicate hx]; rfl, by decide⟩
  have hRun : MonitorRunning monitorState 1 := ⟨rfl, rfl, rfl, rfl, rfl⟩
  have h6 := C2_audience_monitor.2.2.2.2.2.1 monitorState 1
    (List.replicate 6 aloneLookup) hRun hA6 rfl (by decide) (by decide)
  have hmix := C2_audience_monitor.2.2.2.2.2.2 monitorState 1 "123"
    (List.replicate 2 aloneLookup) (List.replicate 3 aloneLookup)
    [selfMember, humanMember] hRun rfl rfl hA2 hA3 (by decide) (by decide) (by decide)
  ⟨C2_audience_monitor.2.1 "streamer" [selfMember] (by unfold selfPresent; decide),
   h6.1, h6.2.1, h6.2.2.1, hmix.1⟩

/-- Claim C3: at most one spectator monitor interval timer is scheduled over
every sequence of operations from the module initial state; every
logged-in stream start resets the alone-time accumulator to 0 and, if a
monitor already exists, clears it before creating the new one (the
trace shows the clearing before the creation); and stopping a playing
session clears the scheduled timer, so a leftover monitor never survives
into a new session. -/
theorem C3_monitor_isolation :
    (∀ (cfg : Config) (lw jw : Bool) (ops : List Op),
      (runOps (initialState cfg lw jw) ops).activeTimers.length ≤ 1) ∧
    (∀ (st : StreamState) (ch : ChannelEntry), st.loggedIn = true →
      (startStreaming st ch).1.streamAloneTime = 0) ∧
    (∀ (st : StreamState) (ch : ChannelEntry) (tid : Nat), st.loggedIn = true →
      MonInv st → st.streamSpectatorMonitor = some tid →
      tid ∉ (startStreaming st ch).1.activeTimers ∧
      (startStreaming st ch).1.activeTimers = [st.nextTimerId] ∧
      (startStreaming st ch).2
        = [Ev.prepareCall st.tokenGen ch.url, Ev.log .info "Streaming channel",
           Ev.timerCleared tid, Ev.timerCreated st.nextTimerId 10000]) ∧
    (∀ (st : StreamState) (ch : ChannelEntry) (tid : Nat), st.loggedIn = true →
      MonInv st → st.currentChannelEntry = some ch →
      st.streamSpectatorMonitor = some tid →
      (stopStreaming st).1.streamSpectatorMonitor = none ∧
      (stopStreaming st).1.activeTimers = []) := by
  refine ⟨?_, ?_, ?_, ?_⟩
  · intro cfg lw jw ops
    have h := (monInv_runOps ops (monInv_initial cfg lw jw)).1
    rw [h]
    unfold monitorList
    cases (runOps (initialState cfg lw jw) ops).streamSpectatorMonitor <;> simp
  · intro st ch hl
    exact (start_keeps ch hl).2.2.2.2.1
  · intro st ch tid hl hInv hm
    have h1 := hInv.1
    rw [monitorList, hm] at h1
    have hfresh := hInv.2.2 tid hm
    rw [start_mon hl hm]
    refine ⟨?_, ?_, rfl⟩
    · simp [h1]
      omega
    · simp [h1]
  · intro st ch tid hl hInv hc hm
    have h1 := hInv.1
    rw [monitorList, hm] at h1
    rw [stop_mon hl hc hm]
    refine ⟨rfl, ?_⟩
    simp [h1]

/-- Witness for C3: a concrete operation sequence, and the concrete running
state with a scheduled monitor for the restart and stop facts. -/
theorem C3_monitor_isolation_witness :
    (runOps (initialState sampleConfig true true)
      [Op.execOp "BBC One" "123" sampleDb,
       Op.execOp "BBC Two" "123" sampleDb]).activeTimers.length ≤ 1 ∧
    (0 : Nat) ∉ (startStreaming monitorState chanB).1.activeTimers ∧
    (startStreaming monitorState chanB).1.streamAloneTime = 0 ∧
    (stopStreaming monitorState).1.streamSpectatorMonitor = none ∧
    (stopStreaming monitorState).1.activeTimers = [] :=
  have hInv : MonInv monitorState := ⟨rfl, by decide, by decide⟩
  ⟨C3_monitor_isolation.1 sampleConfig true true
     [Op.execOp "BBC One" "123" sampleDb, Op.execOp "BBC Two" "123" sampleDb],
   ((C3_monitor_isolation.2.2.1 monitorState chanB 0 rfl hInv rfl).1),
   C3_monitor_isolation.2.1 monitorState chanB rfl,
   (C3_monitor_isolation.2.2.2 monitorState chanA 0 rfl hInv rfl rfl).1,
   (C3_monitor_isolation.2.2.2 monitorState chanA 0 rfl hInv rfl rfl).2⟩

/-- Claim C4: a PipelineError whose underlying cause is the encoder process
being terminated by the session cancellation token (which the ffmpeg
wrapper renders as an exit with code 255) is suppressed from user-facing
error reporting entirely, while every other encoder failure, whose
message does not contain the cancellation exit marker, is surfaced with a
log at error level. -/
theorem C4_cancellation_suppression :
    (∀ e : EncoderFailure, killedByCancellation e = true →
      ffmpegErrorEvents (renderFfmpegError e) = []) ∧
    (∀ e : EncoderFailure, killedByCancellation e = false →
      containsStr (renderFfmpegError e) cancellationExitMarker = false →
      ffmpegErrorEvents (renderFfmpegError e)
        = [Ev.log .error ("FFmpeg " ++ renderFfmpegError e)]) := by
  constructor
  · intro e he
    cases e with
    | cancelledByToken =>
      have hc : containsStr (renderFfmpegError .cancelledByToken) cancellationExitMarker
          = true := by decide
      simp [ffmpegErrorEvents, hc]
    | failure msg => simp [killedByCancellation] at he
  · intro e hk hns
    simp [ffmpegErrorEvents, hns]

/-- Witness for C4 at a concrete cancellation kill and a concrete genuine
failure message. -/
theorem C4_cancellation_suppression_witness :
    ffmpegErrorEvents (renderFfmpegError .cancelledByToken) = [] ∧
    ffmpegErrorEvents (renderFfmpegError (.failure "Error: ffmpeg exited with code 1"))
      = [Ev.log .error
          ("FFmpeg " ++ renderFfmpegError (.failure "Error: ffmpeg exited with code 1"))] :=
  ⟨C4_cancellation_suppression.1 EncoderFailure.cancelledByToken rfl,
   C4_cancellation_suppression.2 (EncoderFailure.failure "Error: ffmpeg exited with code 1")
     rfl (by decide)⟩

/-- Claim C5 counterexample: calling stopStreaming in a logged-in state with
no active session is not free of side effects and does not return before
the grace delay: it aborts the current cancellation token, awaits the
fixed 1000 ms delay, and replaces the token, so the resulting state
differs from the input state. -/
theorem C5_counterexample :
    (stopStreaming readyState).1 ≠ readyState ∧
    Ev.abortToken 0 ∈ (stopStreaming readyState).2 ∧
    Ev.delayMs 1000 ∈ (stopStreaming readyState).2 := by
  refine ⟨?_, ?_, ?_⟩ <;> decide

/-- Claim C5 (amended): stopStreaming called when no session is active never
reports an error (logging at most at debug level) and leaves the session
state unchanged, and does so any number of times in a row; however it is
not entirely without side effects: each call aborts and replaces the
cancellation token (incrementing its generation) and awaits the fixed
1000 ms grace delay before returning at the no-session branch. -/
theorem C5_stop_idempotent :
    ∀ st : StreamState, st.loggedIn = true → st.currentChannelEntry = none →
      stopStreaming st
        = ({ st with tokenGen := st.tokenGen + 1 },
           [Ev.abortToken st.tokenGen, Ev.delayMs 1000,
            Ev.log .debug "No channel currently playing"]) ∧
      (∀ lvl msg, Ev.log lvl msg ∈ (stopStreaming st).2 → lvl = LogLevel.debug) ∧
      (∀ n : Nat,
        ((fun s => (stopStreaming s).1)^[n] st).currentChannelEntry = none ∧
        ((fun s => (stopStreaming s).1)^[n] st).pipelines = st.pipelines ∧
        ((fun s => (stopStreaming s).1)^[n] st).streamSpectatorMonitor
          = st.streamSpectatorMonitor ∧
        ((fun s => (stopStreaming s).1)^[n] st).streamAloneTime = st.streamAloneTime ∧
        ((fun s => (stopStreaming s).1)^[n] st).voiceConn = st.voiceConn ∧
        ((fun s => (stopStreaming s).1)^[n] st).tokenGen = st.tokenGen + n) := by
  intro st h1 h2
  refine ⟨stop_noChannel h1 h2, ?_, ?_⟩
  · intro lvl msg hmem
    rw [stop_noChannel h1 h2] at hmem
    simp at hmem
    exact hmem.1
  · intro n
    obtain ⟨a1, a2, a3, a4, a5, a6, a7⟩ := stop_iter_facts n st h1 h2
    exact ⟨a1, a4, a5, a6, a7, a3⟩

/-- Witness for the amended C5 at the concrete logged-in idle state, with
three stop calls in a row. -/
theorem C5_stop_idempotent_witness :
    stopStreaming readyState
      = ({ readyState with tokenGen := readyState.tokenGen + 1 },
         [Ev.abortToken readyState.tokenGen, Ev.delayMs 1000,
          Ev.log .debug "No channel currently playing"]) ∧
    ((fun s => (stopStreaming s).1)^[3] readyState).currentChannelEntry = none ∧
    ((fun s => (stopStreaming s).1)^[3] readyState).tokenGen = readyState.tokenGen + 3 :=
  ⟨(C5_stop_idempotent readyState rfl rfl).1,
   ((C5_stop_idempotent readyState rfl rfl).2.2 3).1,
   ((C5_stop_idempotent readyState rfl rfl).2.2 3).2.2.2.2.2⟩

/-- Claim C6: joining a voice channel that the current voice connection
already targets is a no-op observable only as one debug log line: the
state is unchanged and no connection attempt is made; consequently a
second consecutive join of the same channel after a successful first join
performs no second underlying connection attempt and logs no error. -/
theorem C6_join_idempotent :
    ∀ (st : StreamState) (g c : String), st.loggedIn = true →
      (st.voiceConn = some c →
        joinVoiceChannel st g c
          = (st, [Ev.log .debug "Already connected to voice channel"])) ∧
      (st.joinWorks = true →
        joinVoiceChannel (joinVoiceChannel st g c).1 g c
          = ((joinVoiceChannel st g c).1,
             [Ev.log .debug "Already connected to voice channel"]) ∧
        countEv ((joinVoiceChannel st g c).2
            ++ (joinVoiceChannel (joinVoiceChannel st g c).1 g c).2)
          (Ev.joinAttempt g c) ≤ 1) := by
  intro st g c hl
  constructor
  · intro hv
    exact join_already hl hv
  · intro hw
    by_cases hv : st.voiceConn = some c
    · rw [join_already hl hv]
      exact ⟨join_already hl hv, by rw [join_already hl hv]; simp [countEv]⟩
    · rw [join_ok hl hv hw]
      have hl2 : ({ st with voiceConn := some c } : StreamState).loggedIn = true := hl
      have hv2 : ({ st with voiceConn := some c } : StreamState).voiceConn = some c := rfl
      refine ⟨join_already hl2 hv2, ?_⟩
      rw [join_already hl2 hv2]
      simp [countEv]

/-- Witness for C6 at a concrete connected state and a concrete fresh state. -/
theorem C6_join_idempotent_witness :
    joinVoiceChannel { readyState with voiceConn := some "123" } "0" "123"
      = ({ readyState with voiceConn := some "123" },
         [Ev.log .debug "Already connected to voice channel"]) ∧
    countEv ((joinVoiceChannel readyState "0" "123").2
        ++ (joinVoiceChannel (joinVoiceChannel readyState "0" "123").1 "0" "123").2)
      (Ev.joinAttempt "0" "123") ≤ 1 :=
  ⟨(C6_join_idempotent { readyState with voiceConn := some "123" } "0" "123" rfl).1 rfl,
   ((C6_join_idempotent readyState "0" "123" rfl).2 rfl).2⟩

/-- Claim C7 counterexample: with invalid credentials, a start request for a
resolvable channel does not propagate the login failure to the command
layer: the AuthError is caught inside initializeStreamer and merely
logged at error level, every subsequent operation is skipped by the
not-logged-in guard (the state is unchanged and no pipeline is prepared),
and the command nevertheless reports success. -/
theorem C7_counterexample :
    executeStreamChannel loginFailState "BBC One" "123" sampleDb
      = (loginFailState,
         [Ev.log .info "Attempting to stream channel: BBC One",
          Ev.loginAttempt,
          Ev.log .error "Error logging in streamer client",
          Ev.log .info "Stopping any existing stream...",
          Ev.log .error "Streamer client is not logged in",
          Ev.delayMs 750,
          Ev.log .info "Joining voice channel...",
          Ev.log .error "Streamer client is not logged in.",
          Ev.delayMs 750,
          Ev.log .error "Streamer client is not logged in"],
         ⟨true, "Now streaming BBC One"⟩) ∧
    (executeStreamChannel loginFailState "BBC One" "123" sampleDb).2.2.success = true := by
  refine ⟨?_, ?_⟩ <;> decide

/-- Claim C7 (amended): a start request first attempts the transport login,
but when the login fails the error is swallowed inside initializeStreamer
and only logged at error level; no AuthError reaches the command layer,
the command reports success while the state is left unchanged, and no
pipeline prepare, no connection attempt and no token abort occur. -/
theorem C7_login_swallowed :
    ∀ (st : StreamState) (nm vc : String) (db : List ChannelEntry) (ch : ChannelEntry),
      st.loggedIn = false → st.loginWorks = false →
      ¬ nm = "" → findChannel db nm = some ch → jsFalsyStr ch.tvg_id = false → ¬ vc = "" →
      (executeStreamChannel st nm vc db).1 = st ∧
      (executeStreamChannel st nm vc db).2.2.success = true ∧
      Ev.log .error "Error logging in streamer client"
        ∈ (executeStreamChannel st nm vc db).2.1 ∧
      (∀ g u, Ev.prepareCall g u ∉ (executeStreamChannel st nm vc db).2.1) ∧
      (∀ g, Ev.abortToken g ∉ (executeStreamChannel st nm vc db).2.1) ∧
      (∀ g c, Ev.joinAttempt g c ∉ (executeStreamChannel st nm vc db).2.1) := by
  intro st nm vc db ch hL hW h0 hf hid hv
  rw [exec_main h0 hf hid hv]
  simp only [execStreamPath, init_failure hL hW]
  by_cases hg : st.gvcChannel = some vc
  · simp [joinBlock, hg, stop_out hL, start_out hL]
  · simp [joinBlock, hg, stop_out hL, start_out hL, join_out hL]

/-- Witness for the amended C7 at the concrete failing-credentials state. -/
theorem C7_login_swallowed_witness :
    (executeStreamChannel loginFailState "BBC One" "123" sampleDb).1 = loginFailState ∧
    (executeStreamChannel loginFailState "BBC One" "123" sampleDb).2.2.success = true ∧
    Ev.log .error "Error logging in streamer client"
      ∈ (executeStreamChannel loginFailState "BBC One" "123" sampleDb).2.1 :=
  have h := C7_login_swallowed loginFailState "BBC One" "123" sampleDb chanA
    rfl rfl (by decide) (by decide) (by decide) (by decide)
  ⟨h.1, h.2.1, h.2.2.1⟩

/-- Claim C8: a start request whose channel name cannot be resolved fails
immediately with the channel-not-found message, leaving the state
untouched and emitting no transport or pipeline event at all, only the
initial info log; this holds both when the name has no database entry and
when the matching entry lacks a tvg identifier. -/
theorem C8_notfound_immediate :
    ∀ (st : StreamState) (nm vc : String) (db : List ChannelEntry),
      ¬ nm = "" →
      (findChannel db nm = none →
        executeStreamChannel st nm vc db
          = (st, [Ev.log .info ("Attempting to stream channel: " ++ nm)],
             ⟨false, "Channel not found: " ++ nm⟩)) ∧
      (∀ ch, findChannel db nm = some ch → jsFalsyStr ch.tvg_id = true →
        executeStreamChannel st nm vc db
          = (st, [Ev.log .info ("Attempting to stream channel: " ++ nm)],
             ⟨false, "Channel not found: " ++ nm⟩)) := by
  intro st nm vc db h0
  exact ⟨fun hf => exec_notFound h0 hf, fun ch hf hid => exec_falsyId h0 hf hid⟩

/-- Witness for C8 at a concrete unresolvable channel name. -/
theorem C8_notfound_immediate_witness :
    executeStreamChannel readyState "No Such Channel" "123" sampleDb
      = (readyState,
         [Ev.log .info ("Attempting to stream channel: " ++ "No Such Channel")],
         ⟨false, "Channel not found: " ++ "No Such Channel"⟩) :=
  (C8_notfound_immediate readyState "No Such Channel" "123" sampleDb (by decide)).1 (by decide)

/-- Claim C9: when the streamer client is not logged in, each of
joinVoiceChannel, startStreaming and stopStreaming returns normally
without performing its action: the state is completely unchanged (no join
attempted, no pipeline prepared, no token aborted) and the only
observable effect is one error log line. -/
theorem C9_logged_out_noop :
    ∀ (st : StreamState) (g c : String) (ch : ChannelEntry), st.loggedIn = false →
      joinVoiceChannel st g c = (st, [Ev.log .error "Streamer client is not logged in."]) ∧
      startStreaming st ch = (st, [Ev.log .error "Streamer client is not logged in"]) ∧
      stopStreaming st = (st, [Ev.log .error "Streamer client is not logged in"]) := by
  intro st g c ch h
  exact ⟨join_out h, start_out h, stop_out h⟩

/-- Claim C10: the idle-audience stop threshold and the default stream
duration both come from the single configuration value
DEFAULT_STREAM_TIMEOUT, which defaults to 10 when its environment
variable is unset; the spectator monitor requests a stop exactly when the
newly incremented alone-time accumulator reaches that value converted to
seconds (times 60), the threshold is determined by that field alone, and
the earlier-revision default stream duration falls back to the same
field. -/
theorem C10_timeout_config :
    (∀ env : Env, env.DEFAULT_STREAM_TIMEOUT = none →
      (Config.ofEnv env).DEFAULT_STREAM_TIMEOUT = some 10) ∧
    (∀ cfg : Config, thresholdSeconds cfg = cfg.DEFAULT_STREAM_TIMEOUT.map (fun t => t * 60)) ∧
    (∀ c1 c2 : Config, c1.DEFAULT_STREAM_TIMEOUT = c2.DEFAULT_STREAM_TIMEOUT →
      thresholdSeconds c1 = thresholdSeconds c2) ∧
    (∀ (st : StreamState) (v : String) (mems : List Member) (T : Int),
      st.cfg.DEFAULT_STREAM_TIMEOUT = some T → st.voiceConn = some v →
      nonBotCount mems = 1 →
      (countEv (monitorTick st (some mems)).2 Ev.monitorStopCall = 1
        ↔ T * 60 ≤ st.streamAloneTime + 10)) ∧
    (∀ cfg : Config, effectiveStreamDuration cfg none = cfg.DEFAULT_STREAM_TIMEOUT) ∧
    (∀ (cfg : Config) (d : Int), d ≤ 0 →
      effectiveStreamDuration cfg (some d) = cfg.DEFAULT_STREAM_TIMEOUT) := by
  refine ⟨?_, ?_, ?_, ?_, ?_, ?_⟩
  · intro env h
    simp only [Config.ofEnv, trimOpt, h, Option.map_none]
    decide
  · intro cfg
    rfl
  · intro c1 c2 h
    simp [thresholdSeconds, h]
  · intro st v mems T hT hv hcnt
    by_cases hge : T * 60 ≤ st.streamAloneTime + 10
    · have hgeb : jsGeOpt (st.streamAloneTime + 10) (thresholdSeconds st.cfg) = true := by
        simp [jsGeOpt, thresholdSeconds, hT]
        omega
      simp only [monitorTick, hv, hcnt, if_pos, hgeb, if_true]
      constructor
      · intro _
        exact hge
      · intro _
        rw [countEv_append, countEv_append, countEv_append]
        have h1 : countEv [Ev.log .debug "No spectators",
            Ev.log .info "No spectators timeout. Stopping stream.",
            Ev.monitorStopCall] Ev.monitorStopCall = 1 := by simp [countEv]
        have h2 : ∀ s : StreamState, countEv (stopStreaming s).2 Ev.monitorStopCall = 0 :=
          fun s => countEv_not_mem (stop_no_marker s).1
        have h3 : countEv [Ev.monitorLeaveCall] Ev.monitorStopCall = 0 := by simp [countEv]
        have h4 : ∀ s : StreamState, countEv (leaveVoiceChannel s).2 Ev.monitorStopCall = 0 :=
          fun s => countEv_not_mem (leave_no_marker s).2
        rw [h1, h2, h3, h4]
    · have hgeb : jsGeOpt (st.streamAloneTime + 10) (thresholdSeconds st.cfg) = false := by
        simp [jsGeOpt, thresholdSeconds, hT]
        omega
      simp only [monitorTick, hv, hcnt, if_pos, hgeb, Bool.false_eq_true, if_false]
      constructor
      · intro hcount
        simp [countEv] at hcount
      · intro hcount
        exact absurd hcount hge
  · intro cfg
    rfl
  · intro cfg d hd
    simp [effectiveStreamDuration, hd]

/-- Witness for C10 at the all-unset environment, a concrete running state
and a concrete non-positive requested duration. -/
theorem C10_timeout_config_witness :
    (Config.ofEnv {}).DEFAULT_STREAM_TIMEOUT = some 10 ∧
    (countEv (monitorTick { monitorState with streamAloneTime := 50 } aloneLookup).2
        Ev.monitorStopCall = 1
      ↔ (1 : Int) * 60 ≤ 50 + 10) ∧
    effectiveStreamDuration quickConfig (some 0) = quickConfig.DEFAULT_STREAM_TIMEOUT :=
  ⟨C10_timeout_config.1 {} rfl,
   C10_timeout_config.2.2.2.1 { monitorState with streamAloneTime := 50 } "123"
     [selfMember] 1 rfl rfl (by decide),
   C10_timeout_config.2.2.2.2.2 quickConfig 0 (by decide)⟩

/-- Witness for C9 at the concrete logged-out state. -/
theorem C9_logged_out_noop_witness :
    joinVoiceChannel loginFailState "0" "123"
      = (loginFailState, [Ev.log .error "Streamer client is not logged in."]) ∧
    startStreaming loginFailState chanA
      = (loginFailState, [Ev.log .error "Streamer client is not logged in"]) ∧
    stopStreaming loginFailState
      = (loginFailState, [Ev.log .error "Streamer client is not logged in"]) :=
  C9_logged_out_noop loginFailState "0" "123" chanA rfl

end Orbiscast
